import Mathlib

/-!
Verification of the SPORTSTIVA real-time broadcast hub: a shallow embedding of
the websocket validation module (two copies exist in the repository, one under
backend/src/websocket/wsValidation.js and one under src/websocket/wsValidation.js;
they differ in the order of the size and parse checks and in the treatment of
arrays by sanitizeData, so both are embedded), of the connection and subscription
handlers in backend/src/websocket/wsHandlers.js, and of the heartbeat tick in
src/websocket/wsServer.js. Machine integers do not occur; JSON numbers reaching
the validator are modeled as integers (the only numeric facts used are equality
with zero and sign, which are exact for every integral double).
-/

/-- JSON values as produced by a successful JSON.parse: null, booleans, numbers,
strings, arrays and objects. Object fields are kept in insertion order;
JSON.parse never yields duplicate keys, and field lookup takes the first match. -/
inductive Json where
  | null
  | bool (b : Bool)
  | num (n : Int)
  | str (s : String)
  | arr (elems : List Json)
  | obj (fields : List (String × Json))
deriving Repr

/-- The one runtime exception class the embedded code can raise: a TypeError from
reading a property of null or undefined. -/
inductive JsErr where
  | typeError
deriving Repr, DecidableEq

/-- Result record of the per-kind validators: in JS either
valid true with no error field, or valid false with an error string. -/
structure VResult where
  valid : Bool
  error : Option String
deriving Repr, DecidableEq

/-- Result record of validateMessage: the spread of a VResult plus, on the routed
branches, the parsed message; none models an absent (undefined) field. -/
structure VMsgResult where
  valid : Bool
  error : Option String
  message : Option Json
deriving Repr

/-- First-match field lookup in a JSON object, as JS property access on the
object produced by JSON.parse. -/
def lookupField (k : String) : List (String × Json) → Option Json
  | [] => none
  | (k', v) :: fs => if k' = k then some v else lookupField k fs

/-- JS property access message.f: throws TypeError when the value is null,
returns the field (or undefined, modeled none) for objects, and undefined for
every other value, whose boxed form has no own property f. -/
def jsField (j : Json) (k : String) : Except JsErr (Option Json) :=
  match j with
  | Json.null => Except.error JsErr.typeError
  | Json.obj fs => Except.ok (lookupField k fs)
  | _ => Except.ok none

/-- JS truthiness of a parsed JSON value: null, false, 0 and the empty string
are falsy; arrays and objects are always truthy. -/
def jsTruthy : Json → Bool
  | Json.null => false
  | Json.bool b => b
  | Json.num n => n != 0
  | Json.str s => s != ""
  | Json.arr _ => true
  | Json.obj _ => true

/-- JS truthiness of a property read result; undefined is falsy. -/
def jsTruthyProp : Option Json → Bool
  | none => false
  | some j => jsTruthy j

/-- The JS test typeof x === "number" on a property read result. -/
def isNumberProp : Option Json → Bool
  | some (Json.num _) => true
  | _ => false

/-- Strict equality of a property read result against a string literal, as used
by the switch cases and the explicit !== tests: it holds exactly when the value
is that string. -/
def typeIs (p : Option Json) (t : String) : Bool :=
  match p with
  | some (Json.str s) => s == t
  | _ => false

mutual

/-- JS string coercion of a parsed JSON value, as used by template literal
interpolation in the unknown-type error message. -/
def jsToString : Json → String
  | Json.null => "null"
  | Json.bool true => "true"
  | Json.bool false => "false"
  | Json.num n => toString n
  | Json.str s => s
  | Json.arr xs => arrToString xs
  | Json.obj _ => "[object Object]"

/-- JS Array toString: elements joined with commas, null elements printed empty. -/
def arrToString : List Json → String
  | [] => ""
  | [x] => match x with
    | Json.null => ""
    | j => jsToString j
  | x :: xs =>
    (match x with
     | Json.null => ""
     | j => jsToString j) ++ "," ++ arrToString xs

end

/-- String coercion of a property read result; undefined prints as undefined. -/
def jsPropToString : Option Json → String
  | none => "undefined"
  | some j => jsToString j

/-- The replace of the regex class of angle brackets with the empty string in
sanitizeData: every occurrence of the two characters is removed. -/
def stripAngles (s : String) : String :=
  String.mk (s.data.filter (fun c => !(c = '<' || c = '>')))

/-- validateSubscribeMessage from wsValidation.js (textually identical in both
copies of the file). The two JS guards are the truthiness test and the strict
inequality against the literal, then the truthiness and typeof tests on matchId. -/
def validateSubscribeMessage (message : Json) : Except JsErr VResult := do
  let t ← jsField message "type"
  if !jsTruthyProp t || !typeIs t "subscribe" then
    pure { valid := false, error := some "Invalid message type" }
  else do
    let m ← jsField message "matchId"
    if !jsTruthyProp m || !isNumberProp m then
      pure { valid := false, error := some "Invalid or missing matchId" }
    else
      pure { valid := true, error := none }

/-- validateUnsubscribeMessage from wsValidation.js (textually identical in both
copies of the file). -/
def validateUnsubscribeMessage (message : Json) : Except JsErr VResult := do
  let t ← jsField message "type"
  if !jsTruthyProp t || !typeIs t "unsubscribe" then
    pure { valid := false, error := some "Invalid message type" }
  else do
    let m ← jsField message "matchId"
    if !jsTruthyProp m || !isNumberProp m then
      pure { valid := false, error := some "Invalid or missing matchId" }
    else
      pure { valid := true, error := none }

/-- validateHeartbeatMessage from wsValidation.js (textually identical in both
copies of the file). -/
def validateHeartbeatMessage (message : Json) : Except JsErr VResult := do
  let t ← jsField message "type"
  if !jsTruthyProp t || (!typeIs t "ping" && !typeIs t "pong") then
    pure { valid := false, error := some "Invalid heartbeat message" }
  else
    pure { valid := true, error := none }

/-- A raw inbound frame, abstracted to the only two observations wsValidation
makes of the string: its length, and the result of JSON.parse on it (none when
parsing throws, which is also exactly when isValidJSON returns false). A
concrete JS string determines both; for example the 4-character string
consisting of the word null has length 4 and parses to Json.null, and a
10001-character string of the letter x has length 10001 and parses to none. -/
structure RawInput where
  length : Nat
  parsed : Option Json
deriving Repr

/-- The switch on message.type shared by the final section of validateMessage,
whose text is identical in both copies of wsValidation.js: route to the
per-kind validator and spread the parsed message into the result, or reject
with an error naming the unrecognized type. Reading message.type throws a
TypeError when the parsed message is null. -/
def routeByType (message : Json) : Except JsErr VMsgResult := do
  let t ← jsField message "type"
  if typeIs t "subscribe" then do
    let r ← validateSubscribeMessage message
    pure { valid := r.valid, error := r.error, message := some message }
  else if typeIs t "unsubscribe" then do
    let r ← validateUnsubscribeMessage message
    pure { valid := r.valid, error := r.error, message := some message }
  else if typeIs t "ping" || typeIs t "pong" then do
    let r ← validateHeartbeatMessage message
    pure { valid := r.valid, error := r.error, message := some message }
  else
    pure { valid := false, error := some ("Unknown message type: " ++ jsPropToString t),
           message := none }

namespace BackendValidation

/-- validateMessage from backend/src/websocket/wsValidation.js: first the
isValidJSON guard (a parse attempt), then JSON.parse, then the size check, then
the switch on message.type. In this copy an oversized frame reaches the size
check only if it parsed, and the size error is returned for whatever the parse
produced, null included, because message.type is not yet read. -/
def validateMessage (raw : RawInput) : Except JsErr VMsgResult :=
  match raw.parsed with
  | none => Except.ok { valid := false, error := some "Invalid JSON format", message := none }
  | some message =>
    if raw.length > 10000 then
      Except.ok { valid := false, error := some "Message too large", message := none }
    else
      routeByType message

mutual

/-- sanitizeData from backend/src/websocket/wsValidation.js. There is no array
case: an array satisfies the typeof object test, so the for-in loop over its
index keys rebuilds it as a plain object whose keys are the decimal index
strings in order. Strings are stripped of angle brackets; null fails the
non-null guard and passes through, as do numbers and booleans. -/
def sanitizeData : Json → Json
  | Json.str s => Json.str (stripAngles s)
  | Json.arr xs => Json.obj (sanitizeArrFields 0 xs)
  | Json.obj fs => Json.obj (sanitizeFields fs)
  | j => j

/-- The for-in loop of the backend sanitizeData applied to an array: index keys
as decimal strings, values sanitized recursively. -/
def sanitizeArrFields (i : Nat) : List Json → List (String × Json)
  | [] => []
  | x :: xs => (toString i, sanitizeData x) :: sanitizeArrFields (i + 1) xs

/-- The for-in loop of the backend sanitizeData applied to an object. -/
def sanitizeFields : List (String × Json) → List (String × Json)
  | [] => []
  | (k, v) :: fs => (k, sanitizeData v) :: sanitizeFields fs

end

end BackendValidation

namespace RootValidation

/-- validateMessage from src/websocket/wsValidation.js: the size check runs
first, so any oversized input is rejected as too large before any parse is
consulted; then the parse (try/catch around JSON.parse), then the same switch. -/
def validateMessage (raw : RawInput) : Except JsErr VMsgResult :=
  if raw.length > 10000 then
    Except.ok { valid := false, error := some "Message too large", message := none }
  else
    match raw.parsed with
    | none => Except.ok { valid := false, error := some "Invalid JSON format", message := none }
    | some message => routeByType message

mutual

/-- sanitizeData from src/websocket/wsValidation.js: strings are stripped of
angle brackets, arrays are rebuilt elementwise by map, objects are rebuilt by
the for-in loop with the same keys, and every other leaf passes through. The
source also converts Date instances to their ISO string; a Date is not a JSON
value and lies outside the domain of this embedding, which covers the values
JSON.parse can produce. -/
def sanitizeData : Json → Json
  | Json.str s => Json.str (stripAngles s)
  | Json.arr xs => Json.arr (sanitizeList xs)
  | Json.obj fs => Json.obj (sanitizeFields fs)
  | j => j

/-- The elementwise map of the root sanitizeData over an array. -/
def sanitizeList : List Json → List Json
  | [] => []
  | x :: xs => sanitizeData x :: sanitizeList xs

/-- The for-in loop of the root sanitizeData over an object. -/
def sanitizeFields : List (String × Json) → List (String × Json)
  | [] => []
  | (k, v) :: fs => (k, sanitizeData v) :: sanitizeFields fs

end

end RootValidation

/-- First-match lookup in an association list, the functional reading of
Map.prototype.get. The maps built by the handlers never hold duplicate keys. -/
def mapLookup {K V : Type} [DecidableEq K] (k : K) : List (K × V) → Option V
  | [] => none
  | (k', v) :: l => if k' = k then some v else mapLookup k l

/-- Map.prototype.set: update the entry in place when the key is present,
append a new entry otherwise, preserving insertion order. -/
def mapSet {K V : Type} [DecidableEq K] (k : K) (v : V) : List (K × V) → List (K × V)
  | [] => [(k, v)]
  | (k', v') :: l => if k' = k then (k, v) :: l else (k', v') :: mapSet k v l

/-- Map.prototype.delete: drop the entry with the key (at most one exists in
the maps the handlers build, so a filter is the same operation). -/
def mapErase {K V : Type} [DecidableEq K] (k : K) : List (K × V) → List (K × V)
  | [] => []
  | (k', v) :: l => if k' = k then mapErase k l else (k', v) :: mapErase k l

/-- Set.prototype.add: keep the element where it is if present, append otherwise. -/
def setAdd {α : Type} [DecidableEq α] (x : α) (l : List α) : List α :=
  if x ∈ l then l else l ++ [x]

/-- Set.prototype.delete: drop the element (at most one occurrence exists in
the sets the handlers build, so a filter is the same operation). -/
def setDel {α : Type} [DecidableEq α] (x : α) : List α → List α
  | [] => []
  | y :: l => if y = x then setDel x l else y :: setDel x l

/-- Client metadata stored in the clients map by handleConnection: the assigned
identifier, the set of subscribed match identifiers in insertion order, the
heartbeat liveness flag, and the connect timestamp. -/
structure ClientData where
  id : String
  matchIds : List Int
  isAlive : Bool
  connectedAt : Nat
deriving Repr, DecidableEq

/-- The module state of wsHandlers.js: the subscriptions map from match
identifier to subscriber set, the clients map from connection to metadata, and
the client id counter. Connections (WebSocket object identities) are modeled as
natural numbers. -/
structure WsState where
  subscriptions : List (Int × List Nat)
  clients : List (Nat × ClientData)
  clientIdCounter : Nat
deriving Repr, DecidableEq

/-- The empty initial module state: both maps empty, counter zero. -/
def initialState : WsState :=
  { subscriptions := [], clients := [], clientIdCounter := 0 }

/-- Outbound frames the handlers serialize and send; the error frame carries the
optional message field of the JS object literal. -/
inductive Frame where
  | connected (clientId : String) (message : String)
  | subscribed (matchId : Int) (message : String)
  | unsubscribed (matchId : Int) (message : String)
  | error (message : Option String)
  | pong (timestamp : Nat)
deriving Repr, DecidableEq

/-- handleConnection: allocate the next client id, register the connection with
an empty topic set and liveness true at the current time, and send the welcome
frame. The transport hands each accepted connection a fresh object, so the
connection key is not already registered when this runs. -/
def handleConnection (now : Nat) (ws : Nat) (st : WsState) : WsState × List (Nat × Frame) :=
  let n := st.clientIdCounter + 1
  let clientId := "client-" ++ toString n
  ({ st with
      clientIdCounter := n,
      clients := mapSet ws
        { id := clientId, matchIds := [], isAlive := true, connectedAt := now } st.clients },
   [(ws, Frame.connected clientId "Connected to Sportz WebSocket server")])

/-- handleSubscribe: reading client.matchIds throws when the connection is not
registered (the registry lookup yields undefined); otherwise add the match to
the client set, create the topic entry if absent, add the connection to the
topic set, and confirm. -/
def handleSubscribe (ws : Nat) (matchId : Int) (st : WsState) :
    Except JsErr (WsState × List (Nat × Frame)) :=
  match mapLookup ws st.clients with
  | none => Except.error JsErr.typeError
  | some client =>
    let client' := { client with matchIds := setAdd matchId client.matchIds }
    let subs1 :=
      match mapLookup matchId st.subscriptions with
      | none => mapSet matchId [] st.subscriptions
      | some _ => st.subscriptions
    let subs2 := mapSet matchId (setAdd ws ((mapLookup matchId subs1).getD [])) subs1
    Except.ok
      ({ st with clients := mapSet ws client' st.clients, subscriptions := subs2 },
       [(ws, Frame.subscribed matchId ("Subscribed to match " ++ toString matchId))])

/-- handleUnsubscribe: reading client.matchIds throws when the connection is not
registered; otherwise remove the match from the client set, remove the
connection from the topic set when the topic exists, delete the topic entry if
its set became empty, and confirm. -/
def handleUnsubscribe (ws : Nat) (matchId : Int) (st : WsState) :
    Except JsErr (WsState × List (Nat × Frame)) :=
  match mapLookup ws st.clients with
  | none => Except.error JsErr.typeError
  | some client =>
    let client' := { client with matchIds := setDel matchId client.matchIds }
    let subs' :=
      match mapLookup matchId st.subscriptions with
      | none => st.subscriptions
      | some s =>
        let s' := setDel ws s
        if s' = [] then mapErase matchId st.subscriptions
        else mapSet matchId s' st.subscriptions
    Except.ok
      ({ st with clients := mapSet ws client' st.clients, subscriptions := subs' },
       [(ws, Frame.unsubscribed matchId ("Unsubscribed from match " ++ toString matchId))])

/-- handlePong, the listener for the transport-level pong control frame: a
guarded no-op for an unregistered connection, otherwise set the liveness flag. -/
def handlePong (ws : Nat) (st : WsState) : WsState :=
  match mapLookup ws st.clients with
  | none => st
  | some client => { st with clients := mapSet ws { client with isAlive := true } st.clients }

/-- One iteration of the forEach in handleDisconnect: when the topic exists,
remove the connection from its subscriber set and delete the entry if the set
became empty. -/
def removeFromTopic (ws : Nat) (subs : List (Int × List Nat)) (matchId : Int) :
    List (Int × List Nat) :=
  match mapLookup matchId subs with
  | none => subs
  | some s =>
    let s' := setDel ws s
    if s' = [] then mapErase matchId subs else mapSet matchId s' subs

/-- handleDisconnect: a guarded no-op for an unregistered connection; otherwise
purge the connection from the subscriber set of every match in its topic set
(deleting entries that become empty) and remove its registry entry. -/
def handleDisconnect (ws : Nat) (st : WsState) : WsState :=
  match mapLookup ws st.clients with
  | none => st
  | some client =>
    { st with
        subscriptions := client.matchIds.foldl (fun subs t => removeFromTopic ws subs t)
          st.subscriptions,
        clients := mapErase ws st.clients }

/-- handleMessage: look up the client, validate the raw frame (which can itself
throw on a frame whose JSON is null), and on failure log the client id (a
TypeError for an unregistered connection) and reply with an error frame. On
success the log line also reads the client id and the message type, then the
switch dispatches: subscribe and unsubscribe to their handlers with the numeric
matchId the validator guaranteed, ping to an immediate pong carrying the
current time, and anything else, the validated pong frame included, to the
unknown-type error reply. The branches passing a non-numeric matchId on are
unreachable because the validator accepted the frame; see
validMatchIdReachability below. -/
def handleMessage (now : Nat) (ws : Nat) (raw : RawInput) (st : WsState) :
    Except JsErr (WsState × List (Nat × Frame)) := do
  let client := mapLookup ws st.clients
  let validation ← BackendValidation.validateMessage raw
  if validation.valid = false then
    match client with
    | none => Except.error JsErr.typeError
    | some _ => pure (st, [(ws, Frame.error validation.error)])
  else
    match client with
    | none => Except.error JsErr.typeError
    | some _ =>
      match validation.message with
      | none => Except.error JsErr.typeError
      | some message => do
        let t ← jsField message "type"
        if typeIs t "subscribe" then do
          let m ← jsField message "matchId"
          match m with
          | some (Json.num n) => handleSubscribe ws n st
          | _ => pure (st, [])
        else if typeIs t "unsubscribe" then do
          let m ← jsField message "matchId"
          match m with
          | some (Json.num n) => handleUnsubscribe ws n st
          | _ => pure (st, [])
        else if typeIs t "ping" then
          pure (st, [(ws, Frame.pong now)])
        else
          pure (st, [(ws, Frame.error (some "Unknown message type"))])

/-- Effect of one heartbeat firing on one client record: a connection found
alive has its flag lowered pending the next acknowledgment; a connection found
dead is returned from early and left untouched (it is terminated instead). -/
def tickClient (c : ClientData) : ClientData :=
  if c.isAlive then { c with isAlive := false } else c

/-- One firing of the heartbeat interval in setupHeartbeat: every registered
connection whose liveness flag is already false is terminated (its registry
entry is untouched here; the terminate call fires the close event, which runs
handleDisconnect), and every other connection has its flag lowered and is sent
a probe. Returns the new state and the list of terminated connections. -/
def heartbeatTick (st : WsState) : WsState × List Nat :=
  ({ st with clients := st.clients.map (fun p => (p.1, tickClient p.2)) },
   (st.clients.filter (fun p => p.2.isAlive = false)).map (fun p => p.1))

/-- The observable outcome of one broadcastToMatch call: the sends performed in
order (recipient and serialized text), the two counters the function logs, and
the value the function returns, which is always undefined because both exits
are a bare return. -/
structure BroadcastOutcome where
  sends : List (Nat × String)
  successCount : Nat
  failureCount : Nat
  retVal : Option (Nat × Nat)
deriving Repr, DecidableEq

/-- The loop body of the forEach in broadcastToMatch, with the transport
observations passed as functions of the connection: a connection not in the
OPEN ready state is skipped without touching either counter; an open connection
over the 1 MiB buffered threshold is counted as a failure; otherwise the send
is attempted, a throwing send is caught and counted as a failure, and a
successful send is recorded and counted. -/
def broadcastStep (readyState bufferedAmount : Nat → Nat) (sendFails : Nat → Bool)
    (message : String) (acc : List (Nat × String) × Nat × Nat) (w : Nat) :
    List (Nat × String) × Nat × Nat :=
  if readyState w = 1 then
    if bufferedAmount w < 1024 * 1024 then
      if sendFails w then (acc.1, acc.2.1, acc.2.2 + 1)
      else (acc.1 ++ [(w, message)], acc.2.1 + 1, acc.2.2)
    else (acc.1, acc.2.1, acc.2.2 + 1)
  else acc

/-- broadcastToMatch: when the topic has no entry or an empty subscriber set,
return immediately having sent nothing; otherwise sanitize the payload once
with the sanitizeData the module imports (the backend copy), serialize that one
value once (JSON.stringify is passed in as the serialization function), and run
the guarded send loop over the subscriber set. The counters are only logged;
the JS function returns undefined on every path, recorded as retVal none. -/
def broadcastToMatch (stringify : Json → String) (readyState bufferedAmount : Nat → Nat)
    (sendFails : Nat → Bool) (matchId : Int) (data : Json) (st : WsState) : BroadcastOutcome :=
  match mapLookup matchId st.subscriptions with
  | none => { sends := [], successCount := 0, failureCount := 0, retVal := none }
  | some subscribers =>
    if subscribers = [] then
      { sends := [], successCount := 0, failureCount := 0, retVal := none }
    else
      let message := stringify (BackendValidation.sanitizeData data)
      let r := subscribers.foldl (broadcastStep readyState bufferedAmount sendFails message)
        ([], 0, 0)
      { sends := r.1, successCount := r.2.1, failureCount := r.2.2, retVal := none }


theorem mapLookup_mapSet_self {K V : Type} [DecidableEq K] (k : K) (v : V) :
    (l : List (K × V)) → mapLookup k (mapSet k v l) = some v
  | [] => by simp [mapSet, mapLookup]
  | (k', v') :: l => by
    by_cases h : k' = k
    · simp [mapSet, h, mapLookup]
    · simp [mapSet, h, mapLookup, mapLookup_mapSet_self k v l]

theorem mapLookup_mapSet_ne {K V : Type} [DecidableEq K] {k' k : K} (v : V) (h : k' ≠ k) :
    (l : List (K × V)) → mapLookup k' (mapSet k v l) = mapLookup k' l
  | [] => by simp [mapSet, mapLookup, Ne.symm h]
  | (k'', v') :: l => by
    by_cases hk : k'' = k
    · subst hk
      simp [mapSet, mapLookup, Ne.symm h]
    · simp [mapSet, hk, mapLookup, mapLookup_mapSet_ne v h l]

theorem mapLookup_mapErase_self {K V : Type} [DecidableEq K] (k : K) :
    (l : List (K × V)) → mapLookup k (mapErase k l) = none
  | [] => by simp [mapErase, mapLookup]
  | (k', v') :: l => by
    by_cases h : k' = k
    · simpa [mapErase, h] using mapLookup_mapErase_self k l
    · simpa [mapErase, h, mapLookup] using mapLookup_mapErase_self k l

theorem mapLookup_mapErase_ne {K V : Type} [DecidableEq K] {k' k : K} (h : k' ≠ k) :
    (l : List (K × V)) → mapLookup k' (mapErase k l) = mapLookup k' l
  | [] => by simp [mapErase, mapLookup]
  | (k'', v') :: l => by
    by_cases hk : k'' = k
    · subst hk
      simpa [mapErase, mapLookup, Ne.symm h] using mapLookup_mapErase_ne h l
    · simp [mapErase, hk, mapLookup, mapLookup_mapErase_ne h l]

theorem mem_setAdd {α : Type} [DecidableEq α] {y x : α} {l : List α} :
    y ∈ setAdd x l ↔ y = x ∨ y ∈ l := by
  unfold setAdd
  by_cases h : x ∈ l
  · simp only [h, if_true]
    constructor
    · exact Or.inr
    · rintro (rfl | hy)
      · exact h
      · exact hy
  · simp [h, List.mem_append, or_comm]

theorem setAdd_ne_nil {α : Type} [DecidableEq α] (x : α) (l : List α) : setAdd x l ≠ [] := by
  unfold setAdd
  by_cases h : x ∈ l
  · simp only [h, if_true]
    exact List.ne_nil_of_mem h
  · simp [h]

theorem setDel_eq_filter {α : Type} [DecidableEq α] (x : α) :
    (l : List α) → setDel x l = l.filter (fun y => y ≠ x)
  | [] => rfl
  | y :: l => by
    by_cases h : y = x
    · simp [setDel, h, setDel_eq_filter x l]
    · simp [setDel, h, setDel_eq_filter x l]

theorem mem_setDel {α : Type} [DecidableEq α] {y x : α} {l : List α} :
    y ∈ setDel x l ↔ y ∈ l ∧ y ≠ x := by
  simp [setDel_eq_filter]

theorem setDel_idem {α : Type} [DecidableEq α] (x : α) (l : List α) :
    setDel x (setDel x l) = setDel x l := by
  rw [setDel_eq_filter, setDel_eq_filter]
  apply List.filter_eq_self.mpr
  intro a ha
  exact (List.mem_filter.mp ha).2

/-- The effect of one handleDisconnect loop iteration on the entry of its own
topic, as a function of the looked-up subscriber set: remove the connection and
collapse to no entry when the set empties. -/
def remEff (ws : Nat) : Option (List Nat) → Option (List Nat)
  | none => none
  | some s => if setDel ws s = [] then none else some (setDel ws s)

theorem remEff_idem (ws : Nat) (o : Option (List Nat)) : remEff ws (remEff ws o) = remEff ws o := by
  cases o with
  | none => rfl
  | some s =>
    by_cases h : setDel ws s = []
    · simp [remEff, h]
    · simp [remEff, h, setDel_idem]

theorem remEff_not_mem {ws : Nat} {o : Option (List Nat)} {s : List Nat}
    (h : remEff ws o = some s) : ws ∉ s := by
  cases o with
  | none => simp [remEff] at h
  | some s0 =>
    by_cases he : setDel ws s0 = []
    · simp [remEff, he] at h
    · rw [remEff, if_neg he] at h
      intro hmem
      rw [← Option.some.inj h] at hmem
      exact (mem_setDel.mp hmem).2 rfl

theorem lookup_removeFromTopic_self (ws : Nat) (subs : List (Int × List Nat)) (m : Int) :
    mapLookup m (removeFromTopic ws subs m) = remEff ws (mapLookup m subs) := by
  unfold removeFromTopic remEff
  cases h : mapLookup m subs with
  | none => simp [h]
  | some s =>
    by_cases he : setDel ws s = []
    · simp [he, mapLookup_mapErase_self]
    · simp [he, mapLookup_mapSet_self]

theorem lookup_removeFromTopic_ne (ws : Nat) (subs : List (Int × List Nat)) {t m : Int}
    (h : t ≠ m) : mapLookup t (removeFromTopic ws subs m) = mapLookup t subs := by
  unfold removeFromTopic
  cases hm : mapLookup m subs with
  | none => rfl
  | some s =>
    by_cases he : setDel ws s = []
    · simp [he, mapLookup_mapErase_ne h]
    · simp [he, mapLookup_mapSet_ne _ h]

theorem foldl_remove_lookup (ws : Nat) :
    (L : List Int) → (subs : List (Int × List Nat)) → (t : Int) →
    mapLookup t (L.foldl (fun ss m => removeFromTopic ws ss m) subs) =
      if t ∈ L then remEff ws (mapLookup t subs) else mapLookup t subs
  | [], subs, t => by simp
  | m :: L', subs, t => by
    rw [List.foldl_cons, foldl_remove_lookup ws L' (removeFromTopic ws subs m) t]
    by_cases hm : t = m
    · subst hm
      by_cases hL : t ∈ L'
      · simp [hL, lookup_removeFromTopic_self, remEff_idem]
      · simp [hL, lookup_removeFromTopic_self]
    · by_cases hL : t ∈ L'
      · simp [hL, hm, lookup_removeFromTopic_ne ws subs hm]
      · simp [hL, hm, lookup_removeFromTopic_ne ws subs hm]

theorem mapLookup_map_value {K V W : Type} [DecidableEq K] (g : V → W) (k : K) :
    (l : List (K × V)) →
    mapLookup k (l.map (fun p => (p.1, g p.2))) = (mapLookup k l).map g
  | [] => by simp [mapLookup]
  | (k', v) :: l => by
    by_cases h : k' = k
    · simp [mapLookup, h]
    · simp [mapLookup, h, mapLookup_map_value g k l]

theorem mem_dead_of_lookup {ws : Nat} {c : ClientData} :
    (l : List (Nat × ClientData)) → mapLookup ws l = some c → c.isAlive = false →
    ws ∈ (l.filter (fun p => p.2.isAlive = false)).map (fun p => p.1)
  | [], h, _ => by simp [mapLookup] at h
  | (w', c') :: l, h, ha => by
    by_cases hw : w' = ws
    · subst hw
      simp only [mapLookup, if_pos rfl] at h
      have hc : c' = c := Option.some.inj h
      subst hc
      simp [List.mem_filter, ha]
    · rw [mapLookup, if_neg hw] at h
      have ih := mem_dead_of_lookup l h ha
      by_cases hc : c'.isAlive = false
      · simpa [List.filter_cons, hc] using Or.inr ih
      · simpa [List.filter_cons, hc] using ih

theorem tickClient_dead {c : ClientData} (h : c.isAlive = false) : tickClient c = c := by
  simp [tickClient, h]

theorem handleDisconnect_registered {st : WsState} {ws : Nat} {c : ClientData}
    (h : mapLookup ws st.clients = some c) :
    handleDisconnect ws st =
      { st with
          subscriptions := c.matchIds.foldl (fun subs t => removeFromTopic ws subs t)
            st.subscriptions,
          clients := mapErase ws st.clients } := by
  unfold handleDisconnect
  rw [h]

theorem handleDisconnect_unregistered {st : WsState} {ws : Nat}
    (h : mapLookup ws st.clients = none) : handleDisconnect ws st = st := by
  unfold handleDisconnect
  rw [h]

/-- C2: a registered connection whose liveness flag is still false when the
heartbeat fires (it acknowledged neither of two consecutive probes, the first
having lowered the flag) is terminated by the tick, and the cleanup that the
resulting close event runs removes it from the client registry and from the
subscriber set of every topic it was subscribed to, deleting any topic entry
whose subscriber set thereby becomes empty; running the cleanup again for the
same connection is a no-op. -/
theorem c2_heartbeatEviction (st : WsState) (ws : Nat) (c : ClientData)
    (hreg : mapLookup ws st.clients = some c) (hdead : c.isAlive = false) :
    ws ∈ (heartbeatTick st).2 ∧
    mapLookup ws (handleDisconnect ws (heartbeatTick st).1).clients = none ∧
    (∀ t, t ∈ c.matchIds → ∀ s,
       mapLookup t (handleDisconnect ws (heartbeatTick st).1).subscriptions = some s →
       ws ∉ s) ∧
    (∀ t, t ∈ c.matchIds → ∀ s,
       mapLookup t (heartbeatTick st).1.subscriptions = some s → setDel ws s = [] →
       mapLookup t (handleDisconnect ws (heartbeatTick st).1).subscriptions = none) ∧
    handleDisconnect ws (handleDisconnect ws (heartbeatTick st).1) =
      handleDisconnect ws (heartbeatTick st).1 := by
  have hdeadmem : ws ∈ (heartbeatTick st).2 := mem_dead_of_lookup st.clients hreg hdead
  have hlook1 : mapLookup ws (heartbeatTick st).1.clients = some c := by
    show mapLookup ws (st.clients.map (fun p => (p.1, tickClient p.2))) = some c
    rw [mapLookup_map_value, hreg, Option.map_some']
    rw [tickClient_dead hdead]
  have hd := handleDisconnect_registered hlook1
  have hnone : mapLookup ws (handleDisconnect ws (heartbeatTick st).1).clients = none := by
    rw [hd]
    exact mapLookup_mapErase_self ws _
  refine ⟨hdeadmem, hnone, ?_, ?_, handleDisconnect_unregistered hnone⟩
  · intro t ht s hs
    rw [hd] at hs
    simp only at hs
    rw [foldl_remove_lookup ws c.matchIds _ t, if_pos ht] at hs
    exact remEff_not_mem hs
  · intro t ht s hs hempty
    rw [hd]
    simp only
    rw [foldl_remove_lookup ws c.matchIds _ t, if_pos ht, hs]
    simp [remEff, hempty]

/-- Concrete run of c2_heartbeatEviction: one client subscribed to topic 7 with
its flag down is terminated by the tick, vanishes from the registry, topic 7 is
deleted because its subscriber set emptied, and a second cleanup changes
nothing. -/
theorem c2_heartbeatEviction_witness :
    0 ∈ (heartbeatTick
          { subscriptions := [(7, [0])],
            clients := [(0, { id := "client-1", matchIds := [7], isAlive := false,
                              connectedAt := 0 })],
            clientIdCounter := 1 }).2 ∧
    mapLookup 0 (handleDisconnect 0 (heartbeatTick
          { subscriptions := [(7, [0])],
            clients := [(0, { id := "client-1", matchIds := [7], isAlive := false,
                              connectedAt := 0 })],
            clientIdCounter := 1 }).1).clients = none ∧
    mapLookup 7 (handleDisconnect 0 (heartbeatTick
          { subscriptions := [(7, [0])],
            clients := [(0, { id := "client-1", matchIds := [7], isAlive := false,
                              connectedAt := 0 })],
            clientIdCounter := 1 }).1).subscriptions = none ∧
    handleDisconnect 0 (handleDisconnect 0 (heartbeatTick
          { subscriptions := [(7, [0])],
            clients := [(0, { id := "client-1", matchIds := [7], isAlive := false,
                              connectedAt := 0 })],
            clientIdCounter := 1 }).1) =
      handleDisconnect 0 (heartbeatTick
          { subscriptions := [(7, [0])],
            clients := [(0, { id := "client-1", matchIds := [7], isAlive := false,
                              connectedAt := 0 })],
            clientIdCounter := 1 }).1 := by
  have h := c2_heartbeatEviction
    { subscriptions := [(7, [0])],
      clients := [(0, { id := "client-1", matchIds := [7], isAlive := false,
                        connectedAt := 0 })],
      clientIdCounter := 1 }
    0 { id := "client-1", matchIds := [7], isAlive := false, connectedAt := 0 }
    (by decide) (by decide)
  exact ⟨h.1, h.2.1, h.2.2.2.1 7 (by decide) [0] (by decide) (by decide), h.2.2.2.2⟩

/-- The subscriber set the broadcast path reads for a topic: the looked-up set,
or empty when the topic has no entry. -/
def subscribersOf (t : Int) (subs : List (Int × List Nat)) : List Nat :=
  (mapLookup t subs).getD []

/-- First claimed index invariant: a registered connection is in the subscriber
set of a topic exactly when the topic is in its subscribed set. -/
def InvMirror (clients : List (Nat × ClientData)) (subs : List (Int × List Nat)) : Prop :=
  ∀ ws c, mapLookup ws clients = some c → ∀ t, (ws ∈ subscribersOf t subs ↔ t ∈ c.matchIds)

/-- Second claimed index invariant: no topic entry has an empty subscriber set. -/
def InvNoEmpty (subs : List (Int × List Nat)) : Prop :=
  ∀ t s, mapLookup t subs = some s → s ≠ []

/-- Auxiliary strengthening carried through the induction: every member of
every subscriber set is a registered connection. -/
def InvRegistered (clients : List (Nat × ClientData)) (subs : List (Int × List Nat)) : Prop :=
  ∀ t s, mapLookup t subs = some s → ∀ w, w ∈ s → (mapLookup w clients).isSome

/-- Projection of a handler result onto the module state: a thrown TypeError
aborts the handler before any mutation (in handleSubscribe and
handleUnsubscribe the throwing dereference precedes every mutation), leaving
the state unchanged. -/
def stepState (st : WsState) (r : Except JsErr (WsState × List (Nat × Frame))) : WsState :=
  match r with
  | Except.ok p => p.1
  | Except.error _ => st

/-- States reachable from the empty initial module state by any interleaving of
registrations, subscribe and unsubscribe operations, and disconnect cleanups.
The transport hands each accepted connection a fresh socket object, so a
registration step carries the freshness of its key. -/
inductive Reachable : WsState → Prop where
  | init : Reachable initialState
  | connect (now ws : Nat) {st : WsState} (h : Reachable st)
      (hfresh : mapLookup ws st.clients = none) :
      Reachable (handleConnection now ws st).1
  | subscribe (ws : Nat) (m : Int) {st : WsState} (h : Reachable st) :
      Reachable (stepState st (handleSubscribe ws m st))
  | unsubscribe (ws : Nat) (m : Int) {st : WsState} (h : Reachable st) :
      Reachable (stepState st (handleUnsubscribe ws m st))
  | disconnect (ws : Nat) {st : WsState} (h : Reachable st) :
      Reachable (handleDisconnect ws st)

theorem isSome_mapSet_of {K V : Type} [DecidableEq K] (k : K) (v : V) (l : List (K × V)) (w : K)
    (h : (mapLookup w l).isSome ∨ w = k) : (mapLookup w (mapSet k v l)).isSome := by
  by_cases hw : w = k
  · subst hw
    rw [mapLookup_mapSet_self]
    rfl
  · rcases h with hs | rfl
    · rw [mapLookup_mapSet_ne v hw]
      exact hs
    · exact absurd rfl hw

theorem not_mem_remEff_getD (ws : Nat) (o : Option (List Nat)) : ws ∉ (remEff ws o).getD [] := by
  cases ho : remEff ws o with
  | none => simp
  | some s =>
    simp only [Option.getD_some]
    exact remEff_not_mem ho

theorem mem_remEff_getD {w ws : Nat} (hw : w ≠ ws) (o : Option (List Nat)) :
    w ∈ (remEff ws o).getD [] ↔ w ∈ o.getD [] := by
  cases o with
  | none => simp [remEff]
  | some s =>
    by_cases he : setDel ws s = []
    · rw [remEff, if_pos he]
      simp only [Option.getD_none, Option.getD_some]
      constructor
      · intro hx
        exact absurd hx (List.not_mem_nil w)
      · intro hx
        exact absurd (he ▸ mem_setDel.mpr ⟨hx, hw⟩) (List.not_mem_nil w)
    · rw [remEff, if_neg he]
      simp only [Option.getD_some]
      rw [mem_setDel]
      exact ⟨fun h => h.1, fun h => ⟨h, hw⟩⟩

theorem remEff_some_ne_nil {ws : Nat} {o : Option (List Nat)} {s : List Nat}
    (h : remEff ws o = some s) : s ≠ [] := by
  cases o with
  | none => simp [remEff] at h
  | some s0 =>
    by_cases he : setDel ws s0 = []
    · simp [remEff, he] at h
    · rw [remEff, if_neg he] at h
      exact (Option.some.inj h) ▸ he

theorem remEff_subset {ws : Nat} {o : Option (List Nat)} {s : List Nat}
    (h : remEff ws o = some s) : s ⊆ o.getD [] := by
  cases o with
  | none => simp [remEff] at h
  | some s0 =>
    by_cases he : setDel ws s0 = []
    · simp [remEff, he] at h
    · rw [remEff, if_neg he] at h
      intro w hw
      rw [← Option.some.inj h] at hw
      exact (mem_setDel.mp hw).1

theorem inv_subscribe_core (st : WsState) (ws : Nat) (m : Int) (client : ClientData)
    (SUBS : List (Int × List Nat))
    (hc : mapLookup ws st.clients = some client)
    (hlook : ∀ t, mapLookup t SUBS =
       if t = m then some (setAdd ws (subscribersOf m st.subscriptions))
       else mapLookup t st.subscriptions)
    (h1 : InvMirror st.clients st.subscriptions) (h2 : InvNoEmpty st.subscriptions)
    (h3 : InvRegistered st.clients st.subscriptions) :
    InvMirror (mapSet ws { client with matchIds := setAdd m client.matchIds } st.clients) SUBS ∧
    InvNoEmpty SUBS ∧
    InvRegistered (mapSet ws { client with matchIds := setAdd m client.matchIds } st.clients)
      SUBS := by
  refine ⟨?_, ?_, ?_⟩
  · intro w c hwc t
    by_cases hw : w = ws
    · subst hw
      rw [mapLookup_mapSet_self] at hwc
      have hcc := Option.some.inj hwc
      subst hcc
      by_cases ht : t = m
      · subst ht
        unfold subscribersOf
        rw [hlook t, if_pos rfl]
        simp only [Option.getD_some]
        constructor
        · intro _
          exact mem_setAdd.mpr (Or.inl rfl)
        · intro _
          exact mem_setAdd.mpr (Or.inl rfl)
      · unfold subscribersOf
        rw [hlook t, if_neg ht]
        have := h1 w client hc t
        unfold subscribersOf at this
        rw [this]
        constructor
        · intro h
          exact mem_setAdd.mpr (Or.inr h)
        · intro h
          rcases mem_setAdd.mp h with rfl | h
          · exact absurd rfl ht
          · exact h
    · rw [mapLookup_mapSet_ne _ hw] at hwc
      by_cases ht : t = m
      · subst ht
        unfold subscribersOf
        rw [hlook t, if_pos rfl]
        simp only [Option.getD_some]
        have := h1 w c hwc t
        unfold subscribersOf at this
        rw [← this]
        constructor
        · intro h
          rcases mem_setAdd.mp h with rfl | h
          · exact absurd rfl hw
          · exact h
        · intro h
          exact mem_setAdd.mpr (Or.inr h)
      · unfold subscribersOf
        rw [hlook t, if_neg ht]
        exact h1 w c hwc t
  · intro t s hts
    by_cases ht : t = m
    · subst ht
      rw [hlook t, if_pos rfl] at hts
      rw [← Option.some.inj hts]
      exact setAdd_ne_nil _ _
    · rw [hlook t, if_neg ht] at hts
      exact h2 t s hts
  · intro t s hts w hws
    by_cases ht : t = m
    · subst ht
      rw [hlook t, if_pos rfl] at hts
      rw [← Option.some.inj hts] at hws
      rcases mem_setAdd.mp hws with rfl | hws
      · exact isSome_mapSet_of _ _ _ _ (Or.inr rfl)
      · apply isSome_mapSet_of
        left
        unfold subscribersOf at hws
        cases hl : mapLookup t st.subscriptions with
        | none =>
          rw [hl] at hws
          exact absurd hws (List.not_mem_nil w)
        | some s1 =>
          rw [hl] at hws
          exact h3 t s1 hl w hws
    · rw [hlook t, if_neg ht] at hts
      exact isSome_mapSet_of _ _ _ _ (Or.inl (h3 t s hts w hws))

theorem inv_unsubscribe_core (st : WsState) (ws : Nat) (m : Int) (client : ClientData)
    (SUBS : List (Int × List Nat))
    (hc : mapLookup ws st.clients = some client)
    (hlook : ∀ t, mapLookup t SUBS =
       if t = m then remEff ws (mapLookup m st.subscriptions)
       else mapLookup t st.subscriptions)
    (h1 : InvMirror st.clients st.subscriptions) (h2 : InvNoEmpty st.subscriptions)
    (h3 : InvRegistered st.clients st.subscriptions) :
    InvMirror (mapSet ws { client with matchIds := setDel m client.matchIds } st.clients) SUBS ∧
    InvNoEmpty SUBS ∧
    InvRegistered (mapSet ws { client with matchIds := setDel m client.matchIds } st.clients)
      SUBS := by
  refine ⟨?_, ?_, ?_⟩
  · intro w c hwc t
    by_cases hw : w = ws
    · subst hw
      rw [mapLookup_mapSet_self] at hwc
      have hcc := Option.some.inj hwc
      subst hcc
      by_cases ht : t = m
      · subst ht
        unfold subscribersOf
        rw [hlook t, if_pos rfl]
        constructor
        · intro h
          exact absurd h (not_mem_remEff_getD w _)
        · intro h
          exact absurd rfl (mem_setDel.mp h).2
      · unfold subscribersOf
        rw [hlook t, if_neg ht]
        have := h1 w client hc t
        unfold subscribersOf at this
        rw [this]
        constructor
        · intro h
          exact mem_setDel.mpr ⟨h, ht⟩
        · intro h
          exact (mem_setDel.mp h).1
    · rw [mapLookup_mapSet_ne _ hw] at hwc
      by_cases ht : t = m
      · subst ht
        unfold subscribersOf
        rw [hlook t, if_pos rfl, mem_remEff_getD hw]
        exact h1 w c hwc t
      · unfold subscribersOf
        rw [hlook t, if_neg ht]
        exact h1 w c hwc t
  · intro t s hts
    by_cases ht : t = m
    · subst ht
      rw [hlook t, if_pos rfl] at hts
      exact remEff_some_ne_nil hts
    · rw [hlook t, if_neg ht] at hts
      exact h2 t s hts
  · intro t s hts w hws
    by_cases ht : t = m
    · subst ht
      rw [hlook t, if_pos rfl] at hts
      have hsub := remEff_subset hts hws
      apply isSome_mapSet_of
      left
      cases hl : mapLookup t st.subscriptions with
      | none =>
        rw [hl] at hsub
        exact absurd hsub (List.not_mem_nil w)
      | some s1 =>
        rw [hl] at hsub
        exact h3 t s1 hl w hsub
    · rw [hlook t, if_neg ht] at hts
      exact isSome_mapSet_of _ _ _ _ (Or.inl (h3 t s hts w hws))

theorem inv_disconnect_core (st : WsState) (ws : Nat) (client : ClientData)
    (SUBS : List (Int × List Nat))
    (hc : mapLookup ws st.clients = some client)
    (hlook : ∀ t, mapLookup t SUBS =
       if t ∈ client.matchIds then remEff ws (mapLookup t st.subscriptions)
       else mapLookup t st.subscriptions)
    (h1 : InvMirror st.clients st.subscriptions) (h2 : InvNoEmpty st.subscriptions)
    (h3 : InvRegistered st.clients st.subscriptions) :
    InvMirror (mapErase ws st.clients) SUBS ∧
    InvNoEmpty SUBS ∧
    InvRegistered (mapErase ws st.clients) SUBS := by
  refine ⟨?_, ?_, ?_⟩
  · intro w c hwc t
    have hw : w ≠ ws := by
      intro hh
      subst hh
      rw [mapLookup_mapErase_self] at hwc
      exact Option.noConfusion hwc
    rw [mapLookup_mapErase_ne hw] at hwc
    by_cases ht : t ∈ client.matchIds
    · unfold subscribersOf
      rw [hlook t, if_pos ht, mem_remEff_getD hw]
      exact h1 w c hwc t
    · unfold subscribersOf
      rw [hlook t, if_neg ht]
      exact h1 w c hwc t
  · intro t s hts
    by_cases ht : t ∈ client.matchIds
    · rw [hlook t, if_pos ht] at hts
      exact remEff_some_ne_nil hts
    · rw [hlook t, if_neg ht] at hts
      exact h2 t s hts
  · intro t s hts w hws
    by_cases ht : t ∈ client.matchIds
    · rw [hlook t, if_pos ht] at hts
      have hwne : w ≠ ws := by
        intro hh
        subst hh
        exact remEff_not_mem hts hws
      have hsub := remEff_subset hts hws
      rw [mapLookup_mapErase_ne hwne]
      cases hl : mapLookup t st.subscriptions with
      | none =>
        rw [hl] at hsub
        exact absurd hsub (List.not_mem_nil w)
      | some s1 =>
        rw [hl] at hsub
        exact h3 t s1 hl w hsub
    · rw [hlook t, if_neg ht] at hts
      have hwne : w ≠ ws := by
        intro hh
        subst hh
        have := (h1 w client hc t).mp
        unfold subscribersOf at this
        rw [hts] at this
        exact ht (this hws)
      rw [mapLookup_mapErase_ne hwne]
      exact h3 t s hts w hws

theorem inv_connect (now ws : Nat) (st : WsState)
    (hfresh : mapLookup ws st.clients = none)
    (h1 : InvMirror st.clients st.subscriptions) (h2 : InvNoEmpty st.subscriptions)
    (h3 : InvRegistered st.clients st.subscriptions) :
    InvMirror (handleConnection now ws st).1.clients
      (handleConnection now ws st).1.subscriptions ∧
    InvNoEmpty (handleConnection now ws st).1.subscriptions ∧
    InvRegistered (handleConnection now ws st).1.clients
      (handleConnection now ws st).1.subscriptions := by
  have hclients : (handleConnection now ws st).1.clients =
      mapSet ws
        { id := "client-" ++ toString (st.clientIdCounter + 1), matchIds := [],
          isAlive := true, connectedAt := now } st.clients := rfl
  have hsubs : (handleConnection now ws st).1.subscriptions = st.subscriptions := rfl
  rw [hclients, hsubs]
  have hnot : ∀ t, ws ∉ subscribersOf t st.subscriptions := by
    intro t hmem
    unfold subscribersOf at hmem
    cases hl : mapLookup t st.subscriptions with
    | none =>
      rw [hl] at hmem
      exact absurd hmem (List.not_mem_nil ws)
    | some s =>
      rw [hl] at hmem
      have hsome := h3 t s hl ws hmem
      rw [hfresh] at hsome
      simp at hsome
  refine ⟨?_, h2, ?_⟩
  · intro w c hwc t
    by_cases hw : w = ws
    · subst hw
      rw [mapLookup_mapSet_self] at hwc
      have hcc := Option.some.inj hwc
      subst hcc
      constructor
      · intro h
        exact absurd h (hnot t)
      · intro h
        exact absurd h (List.not_mem_nil t)
    · rw [mapLookup_mapSet_ne _ hw] at hwc
      exact h1 w c hwc t
  · intro t s hts w hws
    exact isSome_mapSet_of _ _ _ _ (Or.inl (h3 t s hts w hws))

theorem inv_subscribe_preserved (ws : Nat) (m : Int) (st : WsState)
    (h1 : InvMirror st.clients st.subscriptions) (h2 : InvNoEmpty st.subscriptions)
    (h3 : InvRegistered st.clients st.subscriptions) :
    InvMirror (stepState st (handleSubscribe ws m st)).clients
      (stepState st (handleSubscribe ws m st)).subscriptions ∧
    InvNoEmpty (stepState st (handleSubscribe ws m st)).subscriptions ∧
    InvRegistered (stepState st (handleSubscribe ws m st)).clients
      (stepState st (handleSubscribe ws m st)).subscriptions := by
  cases hc : mapLookup ws st.clients with
  | none =>
    have hstep : stepState st (handleSubscribe ws m st) = st := by
      unfold stepState handleSubscribe
      rw [hc]
    rw [hstep]
    exact ⟨h1, h2, h3⟩
  | some client =>
    cases hs : mapLookup m st.subscriptions with
    | none =>
      have hstep : stepState st (handleSubscribe ws m st) =
          { st with
              clients := mapSet ws { client with matchIds := setAdd m client.matchIds }
                st.clients,
              subscriptions := mapSet m (setAdd ws []) (mapSet m [] st.subscriptions) } := by
        unfold stepState handleSubscribe
        rw [hc, hs]
        simp [mapLookup_mapSet_self]
      rw [hstep]
      apply inv_subscribe_core st ws m client _ hc ?_ h1 h2 h3
      intro t
      by_cases ht : t = m
      · subst ht
        rw [if_pos rfl, mapLookup_mapSet_self]
        unfold subscribersOf
        rw [hs]
        rfl
      · rw [if_neg ht, mapLookup_mapSet_ne _ ht, mapLookup_mapSet_ne _ ht]
    | some s =>
      have hstep : stepState st (handleSubscribe ws m st) =
          { st with
              clients := mapSet ws { client with matchIds := setAdd m client.matchIds }
                st.clients,
              subscriptions := mapSet m (setAdd ws s) st.subscriptions } := by
        unfold stepState handleSubscribe
        rw [hc, hs]
        simp [hs]
      rw [hstep]
      apply inv_subscribe_core st ws m client _ hc ?_ h1 h2 h3
      intro t
      by_cases ht : t = m
      · subst ht
        rw [if_pos rfl, mapLookup_mapSet_self]
        unfold subscribersOf
        rw [hs]
        rfl
      · rw [if_neg ht, mapLookup_mapSet_ne _ ht]

theorem inv_unsubscribe_preserved (ws : Nat) (m : Int) (st : WsState)
    (h1 : InvMirror st.clients st.subscriptions) (h2 : InvNoEmpty st.subscriptions)
    (h3 : InvRegistered st.clients st.subscriptions) :
    InvMirror (stepState st (handleUnsubscribe ws m st)).clients
      (stepState st (handleUnsubscribe ws m st)).subscriptions ∧
    InvNoEmpty (stepState st (handleUnsubscribe ws m st)).subscriptions ∧
    InvRegistered (stepState st (handleUnsubscribe ws m st)).clients
      (stepState st (handleUnsubscribe ws m st)).subscriptions := by
  cases hc : mapLookup ws st.clients with
  | none =>
    have hstep : stepState st (handleUnsubscribe ws m st) = st := by
      unfold stepState handleUnsubscribe
      rw [hc]
    rw [hstep]
    exact ⟨h1, h2, h3⟩
  | some client =>
    cases hs : mapLookup m st.subscriptions with
    | none =>
      have hstep : stepState st (handleUnsubscribe ws m st) =
          { st with
              clients := mapSet ws { client with matchIds := setDel m client.matchIds }
                st.clients,
              subscriptions := st.subscriptions } := by
        unfold stepState handleUnsubscribe
        rw [hc, hs]
      rw [hstep]
      apply inv_unsubscribe_core st ws m client _ hc ?_ h1 h2 h3
      intro t
      by_cases ht : t = m
      · subst ht
        rw [if_pos rfl, hs]
        rfl
      · rw [if_neg ht]
    | some s =>
      by_cases he : setDel ws s = []
      · have hstep : stepState st (handleUnsubscribe ws m st) =
            { st with
                clients := mapSet ws { client with matchIds := setDel m client.matchIds }
                  st.clients,
                subscriptions := mapErase m st.subscriptions } := by
          unfold stepState handleUnsubscribe
          rw [hc, hs]
          simp [he]
        rw [hstep]
        apply inv_unsubscribe_core st ws m client _ hc ?_ h1 h2 h3
        intro t
        by_cases ht : t = m
        · subst ht
          rw [if_pos rfl, mapLookup_mapErase_self, hs, remEff, if_pos he]
        · rw [if_neg ht, mapLookup_mapErase_ne ht]
      · have hstep : stepState st (handleUnsubscribe ws m st) =
            { st with
                clients := mapSet ws { client with matchIds := setDel m client.matchIds }
                  st.clients,
                subscriptions := mapSet m (setDel ws s) st.subscriptions } := by
          unfold stepState handleUnsubscribe
          rw [hc, hs]
          simp [he]
        rw [hstep]
        apply inv_unsubscribe_core st ws m client _ hc ?_ h1 h2 h3
        intro t
        by_cases ht : t = m
        · subst ht
          rw [if_pos rfl, mapLookup_mapSet_self, hs, remEff, if_neg he]
        · rw [if_neg ht, mapLookup_mapSet_ne _ ht]

theorem inv_disconnect_preserved (ws : Nat) (st : WsState)
    (h1 : InvMirror st.clients st.subscriptions) (h2 : InvNoEmpty st.subscriptions)
    (h3 : InvRegistered st.clients st.subscriptions) :
    InvMirror (handleDisconnect ws st).clients (handleDisconnect ws st).subscriptions ∧
    InvNoEmpty (handleDisconnect ws st).subscriptions ∧
    InvRegistered (handleDisconnect ws st).clients (handleDisconnect ws st).subscriptions := by
  cases hc : mapLookup ws st.clients with
  | none =>
    rw [handleDisconnect_unregistered hc]
    exact ⟨h1, h2, h3⟩
  | some client =>
    rw [handleDisconnect_registered hc]
    apply inv_disconnect_core st ws client _ hc ?_ h1 h2 h3
    intro t
    exact foldl_remove_lookup ws client.matchIds st.subscriptions t

theorem reachable_inv {st : WsState} (h : Reachable st) :
    InvMirror st.clients st.subscriptions ∧ InvNoEmpty st.subscriptions ∧
    InvRegistered st.clients st.subscriptions := by
  induction h with
  | init =>
    refine ⟨?_, ?_, ?_⟩
    · intro w c hwc
      simp [initialState, mapLookup] at hwc
    · intro t s hts
      simp [initialState, mapLookup] at hts
    · intro t s hts
      simp [initialState, mapLookup] at hts
  | connect now ws h hfresh ih => exact inv_connect now ws _ hfresh ih.1 ih.2.1 ih.2.2
  | subscribe ws m h ih => exact inv_subscribe_preserved ws m _ ih.1 ih.2.1 ih.2.2
  | unsubscribe ws m h ih => exact inv_unsubscribe_preserved ws m _ ih.1 ih.2.1 ih.2.2
  | disconnect ws h ih => exact inv_disconnect_preserved ws _ ih.1 ih.2.1 ih.2.2

/-- C3: in every state reachable from the empty initial state by any sequence
of registrations, subscribe operations, unsubscribe operations and connection
removals, a registered connection appears in the subscriber set of a topic
exactly when that topic appears in the connection's subscribed set, and no
topic entry has an empty subscriber set. -/
theorem c3_subscriptionInvariants (st : WsState) (h : Reachable st) :
    InvMirror st.clients st.subscriptions ∧ InvNoEmpty st.subscriptions := by
  have hi := reachable_inv h
  exact ⟨hi.1, hi.2.1⟩

/-- Concrete run of c3_subscriptionInvariants: after registering connection 0
and subscribing it to topic 7, the two views of the relation agree at the pair
of connection 0 and topic 7. -/
theorem c3_subscriptionInvariants_witness :
    0 ∈ subscribersOf 7
      (stepState (handleConnection 5 0 initialState).1
        (handleSubscribe 0 7 (handleConnection 5 0 initialState).1)).subscriptions ↔
    (7 : Int) ∈ ({ id := "client-1", matchIds := [7], isAlive := true,
                   connectedAt := 5 } : ClientData).matchIds :=
  (c3_subscriptionInvariants _
      (Reachable.subscribe 0 7 (Reachable.connect 5 0 Reachable.init (by decide)))).1
    0 { id := "client-1", matchIds := [7], isAlive := true, connectedAt := 5 }
    (by decide) 7

/-- The recipients the broadcast loop actually sends to: ready state OPEN,
buffered amount strictly under the 1 MiB threshold, send not throwing. -/
def goodRecipient (readyState bufferedAmount : Nat → Nat) (sendFails : Nat → Bool)
    (w : Nat) : Bool :=
  decide (readyState w = 1) && decide (bufferedAmount w < 1024 * 1024) && !sendFails w

/-- The recipients the broadcast loop counts as failures: open connections over
the backpressure threshold or whose send throws. A connection that is not open
is skipped without touching either counter. -/
def countedFailure (readyState bufferedAmount : Nat → Nat) (sendFails : Nat → Bool)
    (w : Nat) : Bool :=
  decide (readyState w = 1) && (decide (1024 * 1024 ≤ bufferedAmount w) || sendFails w)

theorem broadcast_foldl (rs ba : Nat → Nat) (sf : Nat → Bool) (msg : String) :
    (subs : List Nat) → (acc : List (Nat × String) × Nat × Nat) →
    subs.foldl (broadcastStep rs ba sf msg) acc =
      (acc.1 ++ (subs.filter (goodRecipient rs ba sf)).map (fun w => (w, msg)),
       acc.2.1 + (subs.filter (goodRecipient rs ba sf)).length,
       acc.2.2 + (subs.filter (countedFailure rs ba sf)).length)
  | [], acc => by simp
  | w :: subs, acc => by
    rw [List.foldl_cons, broadcast_foldl rs ba sf msg subs _]
    by_cases h1 : rs w = 1
    · by_cases h2 : ba w < 1024 * 1024
      · by_cases h3 : sf w = true
        · have hg : goodRecipient rs ba sf w = false := by
            simp [goodRecipient, h1, h2, h3]
          have hf : countedFailure rs ba sf w = true := by
            simp [countedFailure, h1, h3]
          simp only [broadcastStep, if_pos h1, if_pos h2, if_pos h3, List.filter_cons, hg, hf]
          simp [Nat.add_comm, Nat.add_assoc, Nat.add_left_comm]
        · have h3' : sf w = false := by
            cases hsf : sf w
            · rfl
            · exact absurd hsf h3
          have hg : goodRecipient rs ba sf w = true := by
            simp [goodRecipient, h1, h2, h3']
          have hf : countedFailure rs ba sf w = false := by
            simp [countedFailure, h1, h3', Nat.not_le.mpr h2]
          simp only [broadcastStep, if_pos h1, if_pos h2, h3', if_neg Bool.false_ne_true,
            List.filter_cons, hg, hf]
          simp [Nat.add_comm, Nat.add_assoc, Nat.add_left_comm]
      · have hg : goodRecipient rs ba sf w = false := by
          simp [goodRecipient, h2]
        have hf : countedFailure rs ba sf w = true := by
          simp [countedFailure, h1, Nat.le_of_not_lt h2]
        simp only [broadcastStep, if_pos h1, if_neg h2, List.filter_cons, hg, hf]
        simp [Nat.add_comm, Nat.add_assoc, Nat.add_left_comm]
    · have hg : goodRecipient rs ba sf w = false := by
        simp [goodRecipient, h1]
      have hf : countedFailure rs ba sf w = false := by
        simp [countedFailure, h1]
      simp only [broadcastStep, if_neg h1, List.filter_cons, hg, hf]
      simp

/-- C4 (amended): broadcastToMatch is a silent no-op on a topic with no entry
or an empty subscriber set; otherwise every send it performs carries the one
serialization of the one sanitized copy of the payload and goes to a subscribed
connection that is open, under the 1 MiB buffered threshold and whose send does
not throw, every such connection receives it regardless of failures at the
other recipients, and the two counters it computes and logs count the sends and
the counted failures (backpressure skips and throwing sends; connections not
open are skipped without being counted). The JS function returns undefined on
every path: the counters are logged, never returned. -/
theorem c4_broadcastFanout (stringify : Json → String) (rs ba : Nat → Nat) (sf : Nat → Bool)
    (matchId : Int) (data : Json) (st : WsState) :
    ((mapLookup matchId st.subscriptions = none ∨
      mapLookup matchId st.subscriptions = some []) →
      broadcastToMatch stringify rs ba sf matchId data st =
        { sends := [], successCount := 0, failureCount := 0, retVal := none }) ∧
    (∀ subs, mapLookup matchId st.subscriptions = some subs →
      (broadcastToMatch stringify rs ba sf matchId data st).sends =
        (subs.filter (goodRecipient rs ba sf)).map
          (fun w => (w, stringify (BackendValidation.sanitizeData data))) ∧
      (broadcastToMatch stringify rs ba sf matchId data st).successCount =
        (subs.filter (goodRecipient rs ba sf)).length ∧
      (broadcastToMatch stringify rs ba sf matchId data st).failureCount =
        (subs.filter (countedFailure rs ba sf)).length) ∧
    (broadcastToMatch stringify rs ba sf matchId data st).retVal = none := by
  refine ⟨?_, ?_, ?_⟩
  · rintro (h | h)
    · unfold broadcastToMatch
      rw [h]
    · unfold broadcastToMatch
      rw [h]
      simp
  · intro subs h
    by_cases hnil : subs = []
    · subst hnil
      unfold broadcastToMatch
      rw [h]
      simp
    · unfold broadcastToMatch
      rw [h]
      dsimp only
      rw [if_neg hnil]
      simp only [broadcast_foldl]
      simp
  · cases h : mapLookup matchId st.subscriptions with
    | none =>
      unfold broadcastToMatch
      rw [h]
    | some subs =>
      unfold broadcastToMatch
      rw [h]
      dsimp only
      by_cases hnil : subs = []
      · rw [if_pos hnil]
      · rw [if_neg hnil]

/-- Refutation of C4 as stated: with one subscriber on topic 7 whose socket is
not open (ready state 3), the call performs no send, counts the skip in neither
counter, and returns no pair of counts at all, while the claim promises the
counts of successes and skips as the return value. -/
theorem c4_counterexample :
    broadcastToMatch (fun _ => "p") (fun _ => 3) (fun _ => 0) (fun _ => false) 7 Json.null
      { subscriptions := [(7, [0])],
        clients := [(0, { id := "client-1", matchIds := [7], isAlive := true,
                          connectedAt := 0 })],
        clientIdCounter := 1 } =
      { sends := [], successCount := 0, failureCount := 0, retVal := none } ∧
    ∀ p : Nat × Nat,
      (broadcastToMatch (fun _ => "p") (fun _ => 3) (fun _ => 0) (fun _ => false) 7 Json.null
        { subscriptions := [(7, [0])],
          clients := [(0, { id := "client-1", matchIds := [7], isAlive := true,
                            connectedAt := 0 })],
          clientIdCounter := 1 }).retVal ≠ some p := by
  constructor
  · simp [broadcastToMatch, mapLookup, broadcastStep]
  · intro p
    simp [broadcastToMatch, mapLookup]

/-- Concrete run of c4_broadcastFanout: one open uncongested subscriber on
topic 7 receives exactly one copy of the serialized sanitized payload, and
nothing is returned. -/
theorem c4_broadcastFanout_witness :
    (broadcastToMatch (fun _ => "p") (fun _ => 1) (fun _ => 0) (fun _ => false) 7 Json.null
      { subscriptions := [(7, [0])],
        clients := [(0, { id := "client-9", matchIds := [7], isAlive := true,
                          connectedAt := 0 })],
        clientIdCounter := 9 }).sends = [(0, "p")] ∧
    (broadcastToMatch (fun _ => "p") (fun _ => 1) (fun _ => 0) (fun _ => false) 7 Json.null
      { subscriptions := [(7, [0])],
        clients := [(0, { id := "client-9", matchIds := [7], isAlive := true,
                          connectedAt := 0 })],
        clientIdCounter := 9 }).retVal = none := by
  have h := c4_broadcastFanout (fun _ => "p") (fun _ => 1) (fun _ => 0) (fun _ => false) 7
    Json.null
    { subscriptions := [(7, [0])],
      clients := [(0, { id := "client-9", matchIds := [7], isAlive := true,
                        connectedAt := 0 })],
      clientIdCounter := 9 }
  refine ⟨?_, h.2.2⟩
  rw [(h.2.1 [0] (by decide)).1]
  simp [goodRecipient]

mutual

/-- Claim-side predicate: no string leaf of the value contains one of the two
angle bracket characters. -/
def noAngles : Json → Bool
  | Json.str s => s.data.all (fun c => !(c = '<' || c = '>'))
  | Json.arr xs => noAnglesList xs
  | Json.obj fs => noAnglesFields fs
  | _ => true

/-- noAngles on every element of an array. -/
def noAnglesList : List Json → Bool
  | [] => true
  | x :: xs => noAngles x && noAnglesList xs

/-- noAngles on every value of an object. -/
def noAnglesFields : List (String × Json) → Bool
  | [] => true
  | (_, v) :: fs => noAngles v && noAnglesFields fs

end

theorem stripAngles_idem (s : String) : stripAngles (stripAngles s) = stripAngles s := by
  unfold stripAngles
  congr 1
  apply List.filter_eq_self.mpr
  intro a ha
  exact (List.mem_filter.mp ha).2

theorem stripAngles_of_clean {s : String}
    (h : s.data.all (fun c => !(c = '<' || c = '>')) = true) : stripAngles s = s := by
  unfold stripAngles
  rw [List.filter_eq_self.mpr (by simpa [List.all_eq_true] using h)]

mutual

theorem sanitizeData_idem : (j : Json) →
    RootValidation.sanitizeData (RootValidation.sanitizeData j) = RootValidation.sanitizeData j
  | Json.null => rfl
  | Json.bool _ => rfl
  | Json.num _ => rfl
  | Json.str s => by
    simp only [RootValidation.sanitizeData]
    rw [stripAngles_idem]
  | Json.arr xs => by
    simp only [RootValidation.sanitizeData]
    rw [sanitizeList_idem xs]
  | Json.obj fs => by
    simp only [RootValidation.sanitizeData]
    rw [sanitizeFields_idem fs]

theorem sanitizeList_idem : (xs : List Json) →
    RootValidation.sanitizeList (RootValidation.sanitizeList xs) = RootValidation.sanitizeList xs
  | [] => rfl
  | x :: xs => by
    simp only [RootValidation.sanitizeList]
    rw [sanitizeData_idem x, sanitizeList_idem xs]

theorem sanitizeFields_idem : (fs : List (String × Json)) →
    RootValidation.sanitizeFields (RootValidation.sanitizeFields fs) =
      RootValidation.sanitizeFields fs
  | [] => rfl
  | (k, v) :: fs => by
    simp only [RootValidation.sanitizeFields]
    rw [sanitizeData_idem v, sanitizeFields_idem fs]

end

mutual

theorem sanitizeData_clean_id : (j : Json) → noAngles j = true →
    RootValidation.sanitizeData j = j
  | Json.null, _ => rfl
  | Json.bool _, _ => rfl
  | Json.num _, _ => rfl
  | Json.str s, h => by
    simp only [RootValidation.sanitizeData]
    rw [stripAngles_of_clean (by simpa [noAngles] using h)]
  | Json.arr xs, h => by
    simp only [RootValidation.sanitizeData]
    rw [sanitizeList_clean_id xs (by simpa [noAngles] using h)]
  | Json.obj fs, h => by
    simp only [RootValidation.sanitizeData]
    rw [sanitizeFields_clean_id fs (by simpa [noAngles] using h)]

theorem sanitizeList_clean_id : (xs : List Json) → noAnglesList xs = true →
    RootValidation.sanitizeList xs = xs
  | [], _ => rfl
  | x :: xs, h => by
    have hx : noAngles x = true := by
      simp [noAnglesList, Bool.and_eq_true] at h
      exact h.1
    have hxs : noAnglesList xs = true := by
      simp [noAnglesList, Bool.and_eq_true] at h
      exact h.2
    simp only [RootValidation.sanitizeList]
    rw [sanitizeData_clean_id x hx, sanitizeList_clean_id xs hxs]

theorem sanitizeFields_clean_id : (fs : List (String × Json)) → noAnglesFields fs = true →
    RootValidation.sanitizeFields fs = fs
  | [], _ => rfl
  | (k, v) :: fs, h => by
    have hv : noAngles v = true := by
      simp [noAnglesFields, Bool.and_eq_true] at h
      exact h.1
    have hfs : noAnglesFields fs = true := by
      simp [noAnglesFields, Bool.and_eq_true] at h
      exact h.2
    simp only [RootValidation.sanitizeFields]
    rw [sanitizeData_clean_id v hv, sanitizeFields_clean_id fs hfs]

end

theorem sanitizeList_length : (xs : List Json) →
    (RootValidation.sanitizeList xs).length = xs.length
  | [] => rfl
  | _ :: xs => by
    simp only [RootValidation.sanitizeList, List.length_cons]
    rw [sanitizeList_length xs]

theorem sanitizeFields_keys : (fs : List (String × Json)) →
    (RootValidation.sanitizeFields fs).map Prod.fst = fs.map Prod.fst
  | [] => rfl
  | (k, v) :: fs => by
    simp only [RootValidation.sanitizeFields, List.map_cons]
    rw [sanitizeFields_keys fs]

/-- C5 (amended): for the sanitizeData of the root copy of wsValidation.js the
claim holds in full: it is idempotent, it is the identity on every value whose
string leaves contain no angle bracket, and it preserves shape, rebuilding an
array of the same length and an object with the same keys in order while only
string leaves are rewritten and other leaves pass through. The sanitizeData of
the backend copy, by contrast, rebuilds an array as a string-keyed object (see
the counterexample), so for that copy only idempotence-style properties of the
object form survive, not shape preservation. -/
theorem c5_sanitizeStructure :
    (∀ j, RootValidation.sanitizeData (RootValidation.sanitizeData j) =
       RootValidation.sanitizeData j) ∧
    (∀ j, noAngles j = true → RootValidation.sanitizeData j = j) ∧
    (∀ xs, RootValidation.sanitizeData (Json.arr xs) =
       Json.arr (RootValidation.sanitizeList xs) ∧
       (RootValidation.sanitizeList xs).length = xs.length) ∧
    (∀ fs, RootValidation.sanitizeData (Json.obj fs) =
       Json.obj (RootValidation.sanitizeFields fs) ∧
       (RootValidation.sanitizeFields fs).map Prod.fst = fs.map Prod.fst) ∧
    (∀ s, RootValidation.sanitizeData (Json.str s) = Json.str (stripAngles s)) ∧
    RootValidation.sanitizeData Json.null = Json.null ∧
    (∀ n, RootValidation.sanitizeData (Json.num n) = Json.num n) ∧
    (∀ b, RootValidation.sanitizeData (Json.bool b) = Json.bool b) := by
  refine ⟨sanitizeData_idem, sanitizeData_clean_id, ?_, ?_, ?_, rfl, ?_, ?_⟩
  · intro xs
    exact ⟨by simp [RootValidation.sanitizeData], sanitizeList_length xs⟩
  · intro fs
    exact ⟨by simp [RootValidation.sanitizeData], sanitizeFields_keys fs⟩
  · intro s
    simp [RootValidation.sanitizeData]
  · intro n
    rfl
  · intro b
    rfl

/-- Refutation of C5 as stated: the backend copy of sanitizeData maps the
one-element array of the clean string a to a plain object keyed by the index
string, not to an equal array, violating both the identity on clean values and
the preservation of array shape. -/
theorem c5_counterexample :
    noAngles (Json.arr [Json.str "a"]) = true ∧
    BackendValidation.sanitizeData (Json.arr [Json.str "a"]) =
      Json.obj [("0", Json.str "a")] ∧
    BackendValidation.sanitizeData (Json.arr [Json.str "a"]) ≠ Json.arr [Json.str "a"] := by
  refine ⟨?_, ?_, ?_⟩
  · simp [noAngles, noAnglesList]
  · simp [BackendValidation.sanitizeData, BackendValidation.sanitizeArrFields, stripAngles]
    decide
  · simp [BackendValidation.sanitizeData, BackendValidation.sanitizeArrFields]

/-- Concrete run of c5_sanitizeStructure: a clean nested object is a fixed
point of the root sanitizeData, twice over. -/
theorem c5_sanitizeStructure_witness :
    RootValidation.sanitizeData (RootValidation.sanitizeData
      (Json.obj [("a", Json.str "x")])) =
      RootValidation.sanitizeData (Json.obj [("a", Json.str "x")]) ∧
    noAngles (Json.obj [("a", Json.str "x")]) = true ∧
    RootValidation.sanitizeData (Json.obj [("a", Json.str "x")]) =
      Json.obj [("a", Json.str "x")] := by
  have hclean : noAngles (Json.obj [("a", Json.str "x")]) = true := by
    simp [noAngles, noAnglesFields, noAnglesList]
  exact ⟨c5_sanitizeStructure.1 _, hclean, c5_sanitizeStructure.2.1 _ hclean⟩

/-- C6 (amended): the root copy of validateMessage rejects every input longer
than 10,000 bytes with the size error before consulting the parse at all (its
result is the same whatever the parse oracle says). The backend copy, which
the message handler imports, runs the parse guard first: an oversized input is
rejected with the size error only when it is well-formed JSON, and an oversized
input that is not well-formed JSON is rejected as invalid JSON instead. -/
theorem c6_sizeCheck :
    (∀ n p, 10000 < n →
       RootValidation.validateMessage { length := n, parsed := p } =
         Except.ok { valid := false, error := some "Message too large", message := none }) ∧
    (∀ n p1 p2, 10000 < n →
       RootValidation.validateMessage { length := n, parsed := p1 } =
         RootValidation.validateMessage { length := n, parsed := p2 }) ∧
    (∀ n j, 10000 < n →
       BackendValidation.validateMessage { length := n, parsed := some j } =
         Except.ok { valid := false, error := some "Message too large", message := none }) ∧
    (∀ n, BackendValidation.validateMessage { length := n, parsed := none } =
       Except.ok { valid := false, error := some "Invalid JSON format", message := none }) := by
  refine ⟨?_, ?_, ?_, ?_⟩
  · intro n p h
    unfold RootValidation.validateMessage
    rw [if_pos h]
  · intro n p1 p2 h
    unfold RootValidation.validateMessage
    rw [if_pos h, if_pos h]
  · intro n j h
    unfold BackendValidation.validateMessage
    dsimp only
    rw [if_pos h]
  · intro n
    unfold BackendValidation.validateMessage
    rfl

/-- Refutation of C6 as stated: a 10,001-byte frame that is not well-formed
JSON (for example 10,001 letters x) is rejected by the backend validateMessage
with the JSON format error, not with the size error the claim promises for
every oversized input. -/
theorem c6_counterexample :
    BackendValidation.validateMessage { length := 10001, parsed := none } =
      Except.ok { valid := false, error := some "Invalid JSON format", message := none } ∧
    ("Invalid JSON format" : String) ≠ "Message too large" := by
  exact ⟨rfl, by decide⟩

/-- Concrete run of c6_sizeCheck: a 10,001-byte frame is rejected as too large
by the root copy whatever it parses to, and by the backend copy when it parses,
even to JSON null. -/
theorem c6_sizeCheck_witness :
    RootValidation.validateMessage { length := 10001, parsed := none } =
      Except.ok { valid := false, error := some "Message too large", message := none } ∧
    RootValidation.validateMessage { length := 10001, parsed := none } =
      RootValidation.validateMessage
        { length := 10001, parsed := some (Json.obj [("type", Json.str "ping")]) } ∧
    BackendValidation.validateMessage { length := 10001, parsed := some Json.null } =
      Except.ok { valid := false, error := some "Message too large", message := none } :=
  ⟨c6_sizeCheck.1 10001 none (by decide),
   c6_sizeCheck.2.1 10001 none (some (Json.obj [("type", Json.str "ping")])) (by decide),
   c6_sizeCheck.2.2.1 10001 Json.null (by decide)⟩

/-- C9: validateMessage is not total on its input. On the four-byte frame
consisting of the word null, which is well-formed JSON, both copies pass their
guards, reach the switch, read the type property of the parsed null, and throw
a TypeError instead of returning a validation result. -/
theorem c9_nullCrash :
    BackendValidation.validateMessage { length := 4, parsed := some Json.null } =
      Except.error JsErr.typeError ∧
    RootValidation.validateMessage { length := 4, parsed := some Json.null } =
      Except.error JsErr.typeError :=
  ⟨rfl, rfl⟩

/-- C7 (amended): a parsed subscribe or unsubscribe frame is accepted exactly
when its matchId field holds a nonzero number: a frame missing matchId, with a
non-numeric matchId, or with matchId zero is rejected with the matchId
validation error, but the sign of a nonzero number is never inspected, so
negative values pass (the claim promised acceptance only of positive
integers). -/
theorem c7_matchIdValidation :
    (∀ fs, lookupField "type" fs = some (Json.str "subscribe") →
       (validateSubscribeMessage (Json.obj fs) = Except.ok { valid := true, error := none } ↔
        ∃ n : Int, lookupField "matchId" fs = some (Json.num n) ∧ n ≠ 0)) ∧
    (∀ fs, lookupField "type" fs = some (Json.str "unsubscribe") →
       (validateUnsubscribeMessage (Json.obj fs) = Except.ok { valid := true, error := none } ↔
        ∃ n : Int, lookupField "matchId" fs = some (Json.num n) ∧ n ≠ 0)) ∧
    (∀ fs, lookupField "type" fs = some (Json.str "subscribe") →
       (¬ ∃ n : Int, lookupField "matchId" fs = some (Json.num n) ∧ n ≠ 0) →
       validateSubscribeMessage (Json.obj fs) =
         Except.ok { valid := false, error := some "Invalid or missing matchId" }) ∧
    (∀ fs, lookupField "type" fs = some (Json.str "unsubscribe") →
       (¬ ∃ n : Int, lookupField "matchId" fs = some (Json.num n) ∧ n ≠ 0) →
       validateUnsubscribeMessage (Json.obj fs) =
         Except.ok { valid := false, error := some "Invalid or missing matchId" }) := by
  refine ⟨?_, ?_, ?_, ?_⟩
  · intro fs ht
    cases hm : lookupField "matchId" fs with
    | none =>
      simp [validateSubscribeMessage, jsField, ht, hm, jsTruthyProp, jsTruthy, typeIs,
        isNumberProp, Bind.bind, Except.bind, Pure.pure, Except.pure]
    | some v =>
      cases v with
      | num n =>
        by_cases hn : n = 0
        · subst hn
          simp [validateSubscribeMessage, jsField, ht, hm, jsTruthyProp, jsTruthy, typeIs,
            isNumberProp, Bind.bind, Except.bind, Pure.pure, Except.pure]
        · simp [validateSubscribeMessage, jsField, ht, hm, jsTruthyProp, jsTruthy, typeIs,
            isNumberProp, hn, Bind.bind, Except.bind, Pure.pure, Except.pure]
      | null =>
        simp [validateSubscribeMessage, jsField, ht, hm, jsTruthyProp, jsTruthy, typeIs,
          isNumberProp, Bind.bind, Except.bind, Pure.pure, Except.pure]
      | bool b =>
        simp [validateSubscribeMessage, jsField, ht, hm, jsTruthyProp, jsTruthy, typeIs,
          isNumberProp, Bind.bind, Except.bind, Pure.pure, Except.pure]
      | str s =>
        simp [validateSubscribeMessage, jsField, ht, hm, jsTruthyProp, jsTruthy, typeIs,
          isNumberProp, Bind.bind, Except.bind, Pure.pure, Except.pure]
      | arr xs =>
        simp [validateSubscribeMessage, jsField, ht, hm, jsTruthyProp, jsTruthy, typeIs,
          isNumberProp, Bind.bind, Except.bind, Pure.pure, Except.pure]
      | obj fs2 =>
        simp [validateSubscribeMessage, jsField, ht, hm, jsTruthyProp, jsTruthy, typeIs,
          isNumberProp, Bind.bind, Except.bind, Pure.pure, Except.pure]
  · intro fs ht
    cases hm : lookupField "matchId" fs with
    | none =>
      simp [validateUnsubscribeMessage, jsField, ht, hm, jsTruthyProp, jsTruthy, typeIs,
        isNumberProp, Bind.bind, Except.bind, Pure.pure, Except.pure]
    | some v =>
      cases v with
      | num n =>
        by_cases hn : n = 0
        · subst hn
          simp [validateUnsubscribeMessage, jsField, ht, hm, jsTruthyProp, jsTruthy, typeIs,
            isNumberProp, Bind.bind, Except.bind, Pure.pure, Except.pure]
        · simp [validateUnsubscribeMessage, jsField, ht, hm, jsTruthyProp, jsTruthy, typeIs,
            isNumberProp, hn, Bind.bind, Except.bind, Pure.pure, Except.pure]
      | null =>
        simp [validateUnsubscribeMessage, jsField, ht, hm, jsTruthyProp, jsTruthy, typeIs,
          isNumberProp, Bind.bind, Except.bind, Pure.pure, Except.pure]
      | bool b =>
        simp [validateUnsubscribeMessage, jsField, ht, hm, jsTruthyProp, jsTruthy, typeIs,
          isNumberProp, Bind.bind, Except.bind, Pure.pure, Except.pure]
      | str s =>
        simp [validateUnsubscribeMessage, jsField, ht, hm, jsTruthyProp, jsTruthy, typeIs,
          isNumberProp, Bind.bind, Except.bind, Pure.pure, Except.pure]
      | arr xs =>
        simp [validateUnsubscribeMessage, jsField, ht, hm, jsTruthyProp, jsTruthy, typeIs,
          isNumberProp, Bind.bind, Except.bind, Pure.pure, Except.pure]
      | obj fs2 =>
        simp [validateUnsubscribeMessage, jsField, ht, hm, jsTruthyProp, jsTruthy, typeIs,
          isNumberProp, Bind.bind, Except.bind, Pure.pure, Except.pure]
  · intro fs ht hnot
    cases hm : lookupField "matchId" fs with
    | none =>
      simp [validateSubscribeMessage, jsField, ht, hm, jsTruthyProp, jsTruthy, typeIs,
        isNumberProp, Bind.bind, Except.bind, Pure.pure, Except.pure]
    | some v =>
      cases v with
      | num n =>
        by_cases hn : n = 0
        · subst hn
          simp [validateSubscribeMessage, jsField, ht, hm, jsTruthyProp, jsTruthy, typeIs,
            isNumberProp, Bind.bind, Except.bind, Pure.pure, Except.pure]
        · exact absurd ⟨n, hm, hn⟩ hnot
      | null =>
        simp [validateSubscribeMessage, jsField, ht, hm, jsTruthyProp, jsTruthy, typeIs,
          isNumberProp, Bind.bind, Except.bind, Pure.pure, Except.pure]
      | bool b =>
        simp [validateSubscribeMessage, jsField, ht, hm, jsTruthyProp, jsTruthy, typeIs,
          isNumberProp, Bind.bind, Except.bind, Pure.pure, Except.pure]
      | str s =>
        simp [validateSubscribeMessage, jsField, ht, hm, jsTruthyProp, jsTruthy, typeIs,
          isNumberProp, Bind.bind, Except.bind, Pure.pure, Except.pure]
      | arr xs =>
        simp [validateSubscribeMessage, jsField, ht, hm, jsTruthyProp, jsTruthy, typeIs,
          isNumberProp, Bind.bind, Except.bind, Pure.pure, Except.pure]
      | obj fs2 =>
        simp [validateSubscribeMessage, jsField, ht, hm, jsTruthyProp, jsTruthy, typeIs,
          isNumberProp, Bind.bind, Except.bind, Pure.pure, Except.pure]
  · intro fs ht hnot
    cases hm : lookupField "matchId" fs with
    | none =>
      simp [validateUnsubscribeMessage, jsField, ht, hm, jsTruthyProp, jsTruthy, typeIs,
        isNumberProp, Bind.bind, Except.bind, Pure.pure, Except.pure]
    | some v =>
      cases v with
      | num n =>
        by_cases hn : n = 0
        · subst hn
          simp [validateUnsubscribeMessage, jsField, ht, hm, jsTruthyProp, jsTruthy, typeIs,
            isNumberProp, Bind.bind, Except.bind, Pure.pure, Except.pure]
        · exact absurd ⟨n, hm, hn⟩ hnot
      | null =>
        simp [validateUnsubscribeMessage, jsField, ht, hm, jsTruthyProp, jsTruthy, typeIs,
          isNumberProp, Bind.bind, Except.bind, Pure.pure, Except.pure]
      | bool b =>
        simp [validateUnsubscribeMessage, jsField, ht, hm, jsTruthyProp, jsTruthy, typeIs,
          isNumberProp, Bind.bind, Except.bind, Pure.pure, Except.pure]
      | str s =>
        simp [validateUnsubscribeMessage, jsField, ht, hm, jsTruthyProp, jsTruthy, typeIs,
          isNumberProp, Bind.bind, Except.bind, Pure.pure, Except.pure]
      | arr xs =>
        simp [validateUnsubscribeMessage, jsField, ht, hm, jsTruthyProp, jsTruthy, typeIs,
          isNumberProp, Bind.bind, Except.bind, Pure.pure, Except.pure]
      | obj fs2 =>
        simp [validateUnsubscribeMessage, jsField, ht, hm, jsTruthyProp, jsTruthy, typeIs,
          isNumberProp, Bind.bind, Except.bind, Pure.pure, Except.pure]

/-- Refutation of C7 as stated: the subscribe frame with matchId -5, a number
that is not a positive integer, is accepted, because the code only tests
truthiness (nonzero) and typeof number. -/
theorem c7_counterexample :
    validateSubscribeMessage
      (Json.obj [("type", Json.str "subscribe"), ("matchId", Json.num (-5))]) =
      Except.ok { valid := true, error := none } ∧
    (-5 : Int) < 0 :=
  ⟨rfl, by decide⟩

/-- Concrete run of c7_matchIdValidation: matchId 7 is accepted for subscribe,
and a subscribe frame with matchId 0 is rejected with the matchId error. -/
theorem c7_matchIdValidation_witness :
    validateSubscribeMessage
      (Json.obj [("type", Json.str "subscribe"), ("matchId", Json.num 7)]) =
      Except.ok { valid := true, error := none } ∧
    validateSubscribeMessage
      (Json.obj [("type", Json.str "subscribe"), ("matchId", Json.num 0)]) =
      Except.ok { valid := false, error := some "Invalid or missing matchId" } := by
  constructor
  · exact (c7_matchIdValidation.1 [("type", Json.str "subscribe"), ("matchId", Json.num 7)]
      rfl).mpr ⟨7, rfl, by decide⟩
  · refine c7_matchIdValidation.2.2.1 [("type", Json.str "subscribe"), ("matchId", Json.num 0)]
      rfl ?_
    rintro ⟨n, hn, hnz⟩
    simp [lookupField] at hn
    exact hnz hn.symm

theorem routeByType_unknown {fs : List (String × Json)} {t : String}
    (ht : lookupField "type" fs = some (Json.str t))
    (h1 : t ≠ "subscribe") (h2 : t ≠ "unsubscribe") (h3 : t ≠ "ping") (h4 : t ≠ "pong") :
    routeByType (Json.obj fs) =
      Except.ok { valid := false, error := some ("Unknown message type: " ++ t),
                  message := none } := by
  simp [routeByType, jsField, ht, typeIs, h1, h2, h3, h4, jsPropToString, jsToString,
    Bind.bind, Except.bind, Pure.pure, Except.pure]

/-- C8: a well-formed frame within the size bound whose type is a string other
than subscribe, unsubscribe, ping or pong is rejected by both copies of
validateMessage with an error that names the unrecognized type value after the
fixed prefix. -/
theorem c8_unknownType (n : Nat) (fs : List (String × Json)) (t : String)
    (hn : n ≤ 10000) (ht : lookupField "type" fs = some (Json.str t))
    (h1 : t ≠ "subscribe") (h2 : t ≠ "unsubscribe") (h3 : t ≠ "ping") (h4 : t ≠ "pong") :
    BackendValidation.validateMessage { length := n, parsed := some (Json.obj fs) } =
      Except.ok { valid := false, error := some ("Unknown message type: " ++ t),
                  message := none } ∧
    RootValidation.validateMessage { length := n, parsed := some (Json.obj fs) } =
      Except.ok { valid := false, error := some ("Unknown message type: " ++ t),
                  message := none } := by
  have hsize : ¬(10000 < n) := Nat.not_lt.mpr hn
  constructor
  · unfold BackendValidation.validateMessage
    dsimp only
    rw [if_neg hsize]
    exact routeByType_unknown ht h1 h2 h3 h4
  · unfold RootValidation.validateMessage
    rw [if_neg hsize]
    dsimp only
    exact routeByType_unknown ht h1 h2 h3 h4

/-- Concrete run of c8_unknownType: the 15-byte frame whose type is the string
weird is rejected by both copies with the error naming weird. -/
theorem c8_unknownType_witness :
    BackendValidation.validateMessage
      { length := 15, parsed := some (Json.obj [("type", Json.str "weird")]) } =
      Except.ok { valid := false, error := some ("Unknown message type: " ++ "weird"),
                  message := none } ∧
    RootValidation.validateMessage
      { length := 15, parsed := some (Json.obj [("type", Json.str "weird")]) } =
      Except.ok { valid := false, error := some ("Unknown message type: " ++ "weird"),
                  message := none } :=
  c8_unknownType 15 [("type", Json.str "weird")] "weird" (by decide) rfl
    (by decide) (by decide) (by decide) (by decide)

theorem invalid_result_elim {C : Prop} {r : VResult} {msg : Option String}
    (h : (Except.ok { valid := false, error := msg } : Except JsErr VResult) = Except.ok r)
    (hv : r.valid = true) : C := by
  have h2 := Except.ok.inj h
  rw [← h2] at hv
  simp at hv

theorem validMatchIdReachability (message : Json) (r : VResult)
    (h : validateSubscribeMessage message = Except.ok r ∨
         validateUnsubscribeMessage message = Except.ok r)
    (hv : r.valid = true) :
    ∃ n : Int, n ≠ 0 ∧ jsField message "matchId" = Except.ok (some (Json.num n)) := by
  rcases h with h | h
  · cases message with
    | null => simp [validateSubscribeMessage, jsField, Bind.bind, Except.bind] at h
    | bool b =>
      simp [validateSubscribeMessage, jsField, jsTruthyProp, Bind.bind, Except.bind,
        Pure.pure, Except.pure] at h
      first
      | (rw [← h] at hv; simp at hv)
      | (split at h <;> exact invalid_result_elim h hv)
    | num k =>
      simp [validateSubscribeMessage, jsField, jsTruthyProp, Bind.bind, Except.bind,
        Pure.pure, Except.pure] at h
      first
      | (rw [← h] at hv; simp at hv)
      | (split at h <;> exact invalid_result_elim h hv)
    | str s =>
      simp [validateSubscribeMessage, jsField, jsTruthyProp, Bind.bind, Except.bind,
        Pure.pure, Except.pure] at h
      first
      | (rw [← h] at hv; simp at hv)
      | (split at h <;> exact invalid_result_elim h hv)
    | arr xs =>
      simp [validateSubscribeMessage, jsField, jsTruthyProp, Bind.bind, Except.bind,
        Pure.pure, Except.pure] at h
      first
      | (rw [← h] at hv; simp at hv)
      | (split at h <;> exact invalid_result_elim h hv)
    | obj fs =>
      by_cases htype :
          (!jsTruthyProp (lookupField "type" fs) ||
           !typeIs (lookupField "type" fs) "subscribe") = true
      · simp [validateSubscribeMessage, jsField, htype, Bind.bind, Except.bind,
          Pure.pure, Except.pure] at h
        first
        | (rw [← h] at hv; simp at hv)
        | (split at h <;> exact invalid_result_elim h hv)
      · rw [Bool.not_eq_true] at htype
        cases hm : lookupField "matchId" fs with
        | none =>
          simp [validateSubscribeMessage, jsField, htype, hm, jsTruthyProp, Bind.bind,
            Except.bind, Pure.pure, Except.pure] at h
          first
          | (rw [← h] at hv; simp at hv)
          | (split at h <;> exact invalid_result_elim h hv)
        | some v =>
          cases v with
          | num n =>
            by_cases hn : n = 0
            · subst hn
              simp [validateSubscribeMessage, jsField, htype, hm, jsTruthyProp, jsTruthy,
                isNumberProp, Bind.bind, Except.bind, Pure.pure, Except.pure] at h
              first
              | (rw [← h] at hv; simp at hv)
              | (split at h <;> exact invalid_result_elim h hv)
            · exact ⟨n, hn, by simp [jsField, hm]⟩
          | null =>
            simp [validateSubscribeMessage, jsField, htype, hm, jsTruthyProp, jsTruthy,
              isNumberProp, Bind.bind, Except.bind, Pure.pure, Except.pure] at h
            first
            | (rw [← h] at hv; simp at hv)
            | (split at h <;> exact invalid_result_elim h hv)
          | bool b =>
            simp [validateSubscribeMessage, jsField, htype, hm, jsTruthyProp, jsTruthy,
              isNumberProp, Bind.bind, Except.bind, Pure.pure, Except.pure] at h
            first
            | (rw [← h] at hv; simp at hv)
            | (split at h <;> exact invalid_result_elim h hv)
          | str s =>
            simp [validateSubscribeMessage, jsField, htype, hm, jsTruthyProp, jsTruthy,
              isNumberProp, Bind.bind, Except.bind, Pure.pure, Except.pure] at h
            first
            | (rw [← h] at hv; simp at hv)
            | (split at h <;> exact invalid_result_elim h hv)
          | arr xs =>
            simp [validateSubscribeMessage, jsField, htype, hm, jsTruthyProp, jsTruthy,
              isNumberProp, Bind.bind, Except.bind, Pure.pure, Except.pure] at h
            first
            | (rw [← h] at hv; simp at hv)
            | (split at h <;> exact invalid_result_elim h hv)
          | obj fs2 =>
            simp [validateSubscribeMessage, jsField, htype, hm, jsTruthyProp, jsTruthy,
              isNumberProp, Bind.bind, Except.bind, Pure.pure, Except.pure] at h
            first
            | (rw [← h] at hv; simp at hv)
            | (split at h <;> exact invalid_result_elim h hv)
  · cases message with
    | null => simp [validateUnsubscribeMessage, jsField, Bind.bind, Except.bind] at h
    | bool b =>
      simp [validateUnsubscribeMessage, jsField, jsTruthyProp, Bind.bind, Except.bind,
        Pure.pure, Except.pure] at h
      first
      | (rw [← h] at hv; simp at hv)
      | (split at h <;> exact invalid_result_elim h hv)
    | num k =>
      simp [validateUnsubscribeMessage, jsField, jsTruthyProp, Bind.bind, Except.bind,
        Pure.pure, Except.pure] at h
      first
      | (rw [← h] at hv; simp at hv)
      | (split at h <;> exact invalid_result_elim h hv)
    | str s =>
      simp [validateUnsubscribeMessage, jsField, jsTruthyProp, Bind.bind, Except.bind,
        Pure.pure, Except.pure] at h
      first
      | (rw [← h] at hv; simp at hv)
      | (split at h <;> exact invalid_result_elim h hv)
    | arr xs =>
      simp [validateUnsubscribeMessage, jsField, jsTruthyProp, Bind.bind, Except.bind,
        Pure.pure, Except.pure] at h
      first
      | (rw [← h] at hv; simp at hv)
      | (split at h <;> exact invalid_result_elim h hv)
    | obj fs =>
      by_cases htype :
          (!jsTruthyProp (lookupField "type" fs) ||
           !typeIs (lookupField "type" fs) "unsubscribe") = true
      · simp [validateUnsubscribeMessage, jsField, htype, Bind.bind, Except.bind,
          Pure.pure, Except.pure] at h
        first
        | (rw [← h] at hv; simp at hv)
        | (split at h <;> exact invalid_result_elim h hv)
      · rw [Bool.not_eq_true] at htype
        cases hm : lookupField "matchId" fs with
        | none =>
          simp [validateUnsubscribeMessage, jsField, htype, hm, jsTruthyProp, Bind.bind,
            Except.bind, Pure.pure, Except.pure] at h
          first
          | (rw [← h] at hv; simp at hv)
          | (split at h <;> exact invalid_result_elim h hv)
        | some v =>
          cases v with
          | num n =>
            by_cases hn : n = 0
            · subst hn
              simp [validateUnsubscribeMessage, jsField, htype, hm, jsTruthyProp, jsTruthy,
                isNumberProp, Bind.bind, Except.bind, Pure.pure, Except.pure] at h
              first
              | (rw [← h] at hv; simp at hv)
              | (split at h <;> exact invalid_result_elim h hv)
            · exact ⟨n, hn, by simp [jsField, hm]⟩
          | null =>
            simp [validateUnsubscribeMessage, jsField, htype, hm, jsTruthyProp, jsTruthy,
              isNumberProp, Bind.bind, Except.bind, Pure.pure, Except.pure] at h
            first
            | (rw [← h] at hv; simp at hv)
            | (split at h <;> exact invalid_result_elim h hv)
          | bool b =>
            simp [validateUnsubscribeMessage, jsField, htype, hm, jsTruthyProp, jsTruthy,
              isNumberProp, Bind.bind, Except.bind, Pure.pure, Except.pure] at h
            first
            | (rw [← h] at hv; simp at hv)
            | (split at h <;> exact invalid_result_elim h hv)
          | str s =>
            simp [validateUnsubscribeMessage, jsField, htype, hm, jsTruthyProp, jsTruthy,
              isNumberProp, Bind.bind, Except.bind, Pure.pure, Except.pure] at h
            first
            | (rw [← h] at hv; simp at hv)
            | (split at h <;> exact invalid_result_elim h hv)
          | arr xs =>
            simp [validateUnsubscribeMessage, jsField, htype, hm, jsTruthyProp, jsTruthy,
              isNumberProp, Bind.bind, Except.bind, Pure.pure, Except.pure] at h
            first
            | (rw [← h] at hv; simp at hv)
            | (split at h <;> exact invalid_result_elim h hv)
          | obj fs2 =>
            simp [validateUnsubscribeMessage, jsField, htype, hm, jsTruthyProp, jsTruthy,
              isNumberProp, Bind.bind, Except.bind, Pure.pure, Except.pure] at h
            first
            | (rw [← h] at hv; simp at hv)
            | (split at h <;> exact invalid_result_elim h hv)

/-- C1: the JSON pong frame does parse and validate, but the switch in
handleMessage has no pong case, so against a registered connection whose
liveness flag is down the frame falls to the default branch, is answered with
the unknown-type error frame, and the flag stays false; a ping frame is
answered with a pong frame carrying the current time; the flag is raised only
by handlePong, the listener for the transport-level pong control frame, not by
any inbound JSON message. -/
theorem c1_pongNotHandled :
    handleMessage 99 0 { length := 15, parsed := some (Json.obj [("type", Json.str "pong")]) }
      { subscriptions := [],
        clients := [(0, { id := "client-1", matchIds := [], isAlive := false,
                          connectedAt := 0 })],
        clientIdCounter := 1 } =
      Except.ok
        ({ subscriptions := [],
           clients := [(0, { id := "client-1", matchIds := [], isAlive := false,
                             connectedAt := 0 })],
           clientIdCounter := 1 },
         [(0, Frame.error (some "Unknown message type"))]) ∧
    (mapLookup 0
        ({ subscriptions := [],
           clients := [(0, { id := "client-1", matchIds := [], isAlive := false,
                             connectedAt := 0 })],
           clientIdCounter := 1 } : WsState).clients).map ClientData.isAlive = some false ∧
    handleMessage 99 0 { length := 15, parsed := some (Json.obj [("type", Json.str "ping")]) }
      { subscriptions := [],
        clients := [(0, { id := "client-1", matchIds := [], isAlive := false,
                          connectedAt := 0 })],
        clientIdCounter := 1 } =
      Except.ok
        ({ subscriptions := [],
           clients := [(0, { id := "client-1", matchIds := [], isAlive := false,
                             connectedAt := 0 })],
           clientIdCounter := 1 },
         [(0, Frame.pong 99)]) ∧
    handlePong 0
      { subscriptions := [],
        clients := [(0, { id := "client-1", matchIds := [], isAlive := false,
                          connectedAt := 0 })],
        clientIdCounter := 1 } =
      { subscriptions := [],
        clients := [(0, { id := "client-1", matchIds := [], isAlive := true,
                          connectedAt := 0 })],
        clientIdCounter := 1 } :=
  ⟨rfl, rfl, rfl, rfl⟩

/-- C10: the error-reply path of handleMessage dereferences the looked-up
client metadata without a guard, so it succeeds for a registered connection and
throws for an unregistered one, while handlePong and handleDisconnect are
guarded no-ops for a connection absent from the registry. -/
theorem c10_registryGuards (now ws : Nat) (raw : RawInput) (st : WsState) :
    (∀ c r, mapLookup ws st.clients = some c →
       BackendValidation.validateMessage raw = Except.ok r → r.valid = false →
       handleMessage now ws raw st = Except.ok (st, [(ws, Frame.error r.error)])) ∧
    (∀ r, mapLookup ws st.clients = none →
       BackendValidation.validateMessage raw = Except.ok r → r.valid = false →
       handleMessage now ws raw st = Except.error JsErr.typeError) ∧
    (mapLookup ws st.clients = none → handlePong ws st = st) ∧
    (mapLookup ws st.clients = none → handleDisconnect ws st = st) := by
  refine ⟨?_, ?_, ?_, ?_⟩
  · intro c r hc hv hr
    simp [handleMessage, hc, hv, hr, Bind.bind, Except.bind, Pure.pure, Except.pure]
  · intro r hc hv hr
    simp [handleMessage, hc, hv, hr, Bind.bind, Except.bind, Pure.pure, Except.pure]
  · intro h
    unfold handlePong
    rw [h]
  · exact handleDisconnect_unregistered

/-- Concrete run of c10_registryGuards: an unparseable frame from a registered
connection draws one error frame with the connection left in place, and the
same frame from an unregistered connection makes the handler throw, while
handlePong and handleDisconnect ignore the unregistered connection. -/
theorem c10_registryGuards_witness :
    handleMessage 3 0 { length := 2, parsed := none }
      { subscriptions := [],
        clients := [(0, { id := "client-1", matchIds := [], isAlive := true,
                          connectedAt := 0 })],
        clientIdCounter := 1 } =
      Except.ok
        ({ subscriptions := [],
           clients := [(0, { id := "client-1", matchIds := [], isAlive := true,
                             connectedAt := 0 })],
           clientIdCounter := 1 },
         [(0, Frame.error (some "Invalid JSON format"))]) ∧
    handleMessage 3 1 { length := 2, parsed := none } initialState =
      Except.error JsErr.typeError ∧
    handlePong 1 initialState = initialState ∧
    handleDisconnect 1 initialState = initialState := by
  refine ⟨?_, ?_, ?_, ?_⟩
  · exact (c10_registryGuards 3 0 { length := 2, parsed := none }
      { subscriptions := [],
        clients := [(0, { id := "client-1", matchIds := [], isAlive := true,
                          connectedAt := 0 })],
        clientIdCounter := 1 }).1
      { id := "client-1", matchIds := [], isAlive := true, connectedAt := 0 }
      { valid := false, error := some "Invalid JSON format", message := none }
      (by decide) rfl rfl
  · exact (c10_registryGuards 3 1 { length := 2, parsed := none } initialState).2.1
      { valid := false, error := some "Invalid JSON format", message := none } rfl rfl rfl
  · exact (c10_registryGuards 3 1 { length := 2, parsed := none } initialState).2.2.1 rfl
  · exact (c10_registryGuards 3 1 { length := 2, parsed := none } initialState).2.2.2 rfl
